import Mathlib

/-!
Verification development for the DieOrDare rules engine
(`src/die_or_dare.py`).  The Python classes and functions that the
claims touch are shallowly embedded as executable Lean definitions:
mutation becomes explicit state passing, Python exceptions become
`Option` results (`none` = the call raises), Python `int` becomes `Int`
and Python lists become `List`.
-/

set_option maxHeartbeats 1600000
set_option maxRecDepth 4000
set_option linter.unnecessarySimpa false
set_option linter.unnecessarySeqFocus false

namespace DieOrDare

/-- Modelled from the spec: the repository imports a `constants` module that
is not under `src/`.  Per the spec, actions form the closed enumeration
IDLE, DARE, DIE, DONE, DRAW (`constants.Action`). -/
inductive Action where
  | IDLE
  | DARE
  | DIE
  | DONE
  | DRAW
deriving DecidableEq

/-- Modelled from the spec: deck lifecycle states (`constants.DeckState`):
UNDISCLOSED, IN_DUEL, FINISHED. -/
inductive DeckState where
  | UNDISCLOSED
  | IN_DUEL
  | FINISHED
deriving DecidableEq

/-- Modelled from the spec: duel states (`constants.DuelState`). -/
inductive DuelState where
  | UNSTARTED
  | ONGOING
  | DIED
  | DRAWN
  | FINISHED
  | ABORTED_BY_CORRECT_DONE
  | ABORTED_BY_WRONG_CHOICE
deriving DecidableEq

/-- Modelled from the spec: game results (`constants.GameResult`); the code
uses `DONE` (game ended by a correct done) and `FINISHED` (required points
reached). -/
inductive GameResult where
  | DONE
  | FINISHED
deriving DecidableEq

/-- Modelled from the spec: the numeric configuration constants of the
missing `constants` module.  `maxDie` is `constants.MAX_DIE` (per-game cap on
die declarations), `maxDraw` is `constants.MAX_DRAW`, `requiredPoints` is
`constants.REQUIRED_POINTS` (the point total that ends the game).  The spec
fixes none of their numeric values, so they are carried as parameters. -/
structure Config where
  maxDie : Nat
  maxDraw : Nat
  requiredPoints : Nat
deriving DecidableEq

/-- Embedding of the Python `Card`.  `rank = none` models
`rank == constants.JOKER`; a non-joker card of rank r (1..13) has
`rank = some r`.  Python leaves a joker's `_value` as `None` until a value
strategy assigns it; no code path embedded here reads a joker's value before
assignment (every read is guarded by an `_is_joker()` test or happens after
the strategy ran), so the unassigned value is represented by `0`. -/
structure Card where
  suit : Option Nat
  colored : Bool
  rank : Option Nat
  value : Int
  open_ : Bool
deriving DecidableEq

/-- `Card._is_joker`: the rank is the JOKER marker. -/
def Card.is_joker (c : Card) : Bool := c.rank == none

/-- `Card.__eq__`: equality is by suit + color + rank, independent of
value and of the revealed flag. -/
def Card.eqId (a b : Card) : Bool :=
  (a.suit == b.suit) && (a.colored == b.colored) && (a.rank == b.rank)

/-- `Card.open_up`. -/
def Card.open_up (c : Card) : Card := { c with open_ := true }

/-- Embedding of the Python `Deck`: exactly the fields the claims touch
(`_cards`, `_state`, `_index`). -/
structure Deck where
  cards : List Card
  state : DeckState
  index : Nat
deriving DecidableEq

def Deck.is_undisclosed (d : Deck) : Bool := d.state == DeckState.UNDISCLOSED

def Deck.is_in_duel (d : Deck) : Bool := d.state == DeckState.IN_DUEL

/-- `Deck.delegate` is `cards[0]`; Python raises on an empty deck, hence
`Option`. -/
def Deck.delegate (d : Deck) : Option Card := d.cards.head?

/-- Sum of all three card values of a deck (`sum(card._value for card in deck)`). -/
def Deck.sumValues (d : Deck) : Int := (d.cards.map (·.value)).sum

/-- Python `max(cards, key=lambda x: x._value)`: first card with maximal
value; `none` on the empty list (Python raises). -/
def pyMaxBy (f : Card → Int) : List Card → Option Card
  | [] => none
  | c :: cs => some (cs.foldl (fun acc x => if f x > f acc then x else acc) c)

/-- Python `min(cards, key=lambda x: x._value)`: first card with minimal
value; `none` on the empty list (Python raises). -/
def pyMinBy (f : Card → Int) : List Card → Option Card
  | [] => none
  | c :: cs => some (cs.foldl (fun acc x => if f x < f acc then x else acc) c)

/-- Python `cards.index(x)`: index of the first element equal (by card
identity) to `x`; `none` if absent (Python raises ValueError). -/
def pyIndex (cards : List Card) (c : Card) : Option Nat :=
  cards.findIdx? (fun x => Card.eqId x c)

/-- Assign value `v` to the first joker of the list; models the Python
mutation `joker._value = v` where `joker` is the first joker object. -/
def setFirstJokerValue (v : Int) : List Card → List Card
  | [] => []
  | c :: cs =>
    if c.is_joker then { c with value := v } :: cs
    else c :: setFirstJokerValue v cs

/-- Embedding of `NextBiggest.apply` (joker value strategy "assign the next
biggest value that is not yet in the deck").  Mirrors the source: find the
joker, take max and min of the remaining cards, and assign
`1` if max = 1, `3 - min` if max = 2, `max - 2` if min = max - 1,
else `max - 1`.  Returns `none` when the Python code would raise
(max/min over an empty list). -/
def NextBiggest.apply (cards : List Card) : Option (List Card) :=
  match cards.find? (·.is_joker) with
  | none => some cards
  | some joker =>
    let cards_without_joker := cards.filter (fun c => !(Card.eqId c joker))
    match pyMaxBy (·.value) cards_without_joker,
          pyMinBy (·.value) cards_without_joker with
    | some biggest, some smallest =>
      let v : Int :=
        if biggest.value = 1 then 1
        else if biggest.value = 2 then 3 - smallest.value
        else if smallest.value = biggest.value - 1 then biggest.value - 2
        else biggest.value - 1
      some (setFirstJokerValue v cards)
    | _, _ => none

/-- Value of the (first) joker in a card list, if any. -/
def jokerValueOf (cards : List Card) : Option Int :=
  (cards.find? (·.is_joker)).map (·.value)

/-- Python swap `cards[0], cards[index] = cards[index], cards[0]`
(`JokerPositionStrategy.to_delegate`). -/
def to_delegate (cards : List Card) (index : Nat) : List Card :=
  match cards.get? index, cards.get? 0 with
  | some ci, some c0 => (cards.set 0 ci).set index c0
  | _, _ => cards

/-- Python swap of two arbitrary positions
(`cards[-1], cards[joker_index] = cards[joker_index], cards[-1]` is
`swapIdx cards (cards.length - 1) joker_index`). -/
def swapIdx (cards : List Card) (i j : Nat) : List Card :=
  match cards.get? i, cards.get? j with
  | some ci, some cj => (cards.set i cj).set j ci
  | _, _ => cards

/-- The source's joker-index scan: a loop over all positions that keeps
overwriting, so it yields the LAST joker index. -/
def lastJokerIdx (cards : List Card) : Option Nat :=
  (List.range cards.length).foldl
    (fun acc i =>
      match cards.get? i with
      | some c => if c.is_joker then some i else acc
      | none => acc)
    none

/-- `JokerPositionStrategy.biggest_to_delegate`: move the first card of
maximal value to slot 0. -/
def biggest_to_delegate (cards : List Card) : Option (List Card) :=
  match pyMaxBy (·.value) cards with
  | none => none
  | some biggest =>
    match pyIndex cards biggest with
    | none => none
    | some i => some (to_delegate cards i)

/-- Embedding of `JokerLast.apply` (position strategy "hide the joker as
long as possible").  Faithful to the source, including the fact that
`joker_index` is NOT recomputed after the `to_delegate` swap in the else
branch: the final swap uses the stale pre-swap joker index. -/
def JokerLast.apply (cards : List Card) : Option (List Card) :=
  match lastJokerIdx cards with
  | none => biggest_to_delegate cards
  | some joker_index =>
    match cards.get? joker_index with
    | none => none
    | some joker =>
      let cards_without_joker := cards.filter (fun c => !c.is_joker)
      match pyMaxBy (·.value) cards_without_joker with
      | none => none
      | some bigger =>
        if joker.value > bigger.value then
          some (to_delegate cards joker_index)
        else
          match pyIndex cards bigger with
          | none => none
          | some bigger_index =>
            let cards1 := to_delegate cards bigger_index
            some (swapIdx cards1 (cards1.length - 1) joker_index)

/-- Python list indexing `l[i]` with `i : int`: supports negative indices
from the end; `none` models an IndexError. -/
def pyListGet (l : List α) (i : Int) : Option α :=
  if 0 ≤ i then l.get? i.toNat
  else if i.natAbs ≤ l.length then l.get? (l.length - i.natAbs)
  else none

/-- Embedding of `StatsConsideredBiggest.apply` (the "stats-matched"
defense-deck strategy): index the opponent's undisclosed decks at
`(MAX_DIE - num_shout_die_opponent) + (REQUIRED_POINTS - points_me) - 1`,
with no bounds guard.  `none` models the IndexError the source would
raise. -/
def StatsConsideredBiggest.apply (cfg : Config) (decks_opponent : List Deck)
    (points_me : Nat) (num_shout_die_opponent : Nat) : Option Deck :=
  let undisclosed_decks := decks_opponent.filter (·.is_undisclosed)
  let remaining_die_opponent : Int :=
    (cfg.maxDie : Int) - (num_shout_die_opponent : Int)
  let remaining_points_me : Int :=
    (cfg.requiredPoints : Int) - (points_me : Int)
  let index : Int := remaining_die_opponent + remaining_points_me - 1
  pyListGet undisclosed_decks index

/-! Concrete cards used by the closed test-vector theorems. -/

/-- A concrete non-joker card (closed suit/rank/value, face down). -/
def mkCard (suit rank : Nat) (v : Int) : Card :=
  { suit := some suit, colored := true, rank := some rank, value := v,
    open_ := false }

/-- A concrete joker whose value has already been set to `v` by a value
strategy (for position-strategy inputs), or `0` for a fresh joker. -/
def mkJoker (v : Int) : Card :=
  { suit := none, colored := true, rank := none, value := v, open_ := false }

/-- Spec test vector 1: a 3-card deck whose non-joker values are 5 and 9. -/
def deck59 : List Card := [mkCard 0 5 5, mkCard 1 9 9, mkJoker 0]

/-- Spec test vector 2: a 3-card deck whose non-joker values are 7 and 8. -/
def deck78 : List Card := [mkCard 0 7 7, mkCard 1 8 8, mkJoker 0]

/--
C5 counterexample.  The claim states that `NextBiggest` resolves the joker
of a deck with non-joker values 7 and 8 to 5.  On the source, since
min(7) = max(8) − 1, the joker is assigned `max − 2 = 6`, not 5: the
claim's second test vector is false at this concrete input.
-/
theorem NextBiggest_seven_eight_gives_six_not_five :
    (NextBiggest.apply deck78).bind jokerValueOf = some 6 ∧
      ¬ (NextBiggest.apply deck78).bind jokerValueOf = some 5 := by
  decide

/--
C5 (amended).  `NextBiggest` joker-value resolution on the spec's test
decks: for non-joker values 5 and 9 the joker resolves to 8 (max − 1,
since min 5 ≠ max − 1 = 8), and for non-joker values 7 and 8 the joker
resolves to 6 (max − 2, since min 7 = max − 1).
-/
theorem NextBiggest_test_vectors :
    (NextBiggest.apply deck59).bind jokerValueOf = some 8 ∧
      (NextBiggest.apply deck78).bind jokerValueOf = some 6 := by
  decide

/-- A weak joker (value 3) sitting in slot 0 of a freshly dealt deck,
with non-jokers of values 5 and 4 behind it. -/
def jokerFirstDeck : List Card := [mkJoker 3, mkCard 0 5 5, mkCard 1 4 4]

/--
C3/C7 helper fact is not needed; this is the C7 evaluation.  The claim
(and the strategy's own docstring, "hide the joker as long as possible")
requires that when the joker's value (3) does not exceed the best
non-joker (5), the best non-joker ends in slot 0 and the joker in the
last slot, i.e. the result should be [5-card, 4-card, joker].  The source
swaps the best card into slot 0 and then swaps `cards[-1]` with the STALE
pre-swap `joker_index` (= 0), producing [4-card, joker, 5-card]: the
4-valued card becomes the delegate and the joker sits in the middle slot,
revealed on the first card opening — contradicting the claim for a joker
initially in slot 0.
-/
theorem JokerLast_stale_index_bug :
    JokerLast.apply jokerFirstDeck =
        some [mkCard 1 4 4, mkJoker 3, mkCard 0 5 5] ∧
      ¬ JokerLast.apply jokerFirstDeck =
          some [mkCard 0 5 5, mkCard 1 4 4, mkJoker 3] := by
  decide

/-- A one-card undisclosed opponent deck list for the C8 counterexample. -/
def c8Deck : Deck :=
  { cards := [mkCard 0 1 1, mkCard 1 2 2, mkCard 2 3 3],
    state := DeckState.UNDISCLOSED, index := 0 }

/-- A second undisclosed deck, used by the C8 witness. -/
def c8Deck2 : Deck :=
  { cards := [mkCard 0 4 4, mkCard 1 5 5, mkCard 2 6 6],
    state := DeckState.UNDISCLOSED, index := 1 }

/--
C8 counterexample.  With caps MAX_DIE = 3 and REQUIRED_POINTS = 5 (the
values are parameters, cf. `Config`), an invocation where the opponent has
exactly one undisclosed deck, zero opponent die shouts and zero own points
computes offset (3 − 0) + (5 − 0) − 1 = 7 ≥ 1, so the unguarded list
index faults (`none` models the IndexError): the strategy does NOT return
one of the opponent's undisclosed decks, refuting the claim that the
offset is always a valid index.
-/
theorem StatsConsideredBiggest_out_of_range :
    StatsConsideredBiggest.apply ⟨3, 3, 5⟩ [c8Deck] 0 0 = none ∧
      ([c8Deck].filter (·.is_undisclosed)).length = 1 := by
  decide

/--
C8 (amended).  The computed offset is a valid index only when it is
nonnegative and smaller than the number of the opponent's undisclosed
decks; exactly in that case the strategy returns the undisclosed deck at
that offset, which is one of the opponent's undisclosed decks.  Otherwise
the unguarded index faults.
-/
theorem StatsConsideredBiggest_in_range_ok (cfg : Config)
    (decks_opponent : List Deck) (points_me num_die_opp : Nat)
    (h :
      ((cfg.maxDie : Int) - (num_die_opp : Int) +
          ((cfg.requiredPoints : Int) - (points_me : Int)) - 1).toNat <
        (decks_opponent.filter (·.is_undisclosed)).length)
    (h0 :
      0 ≤ (cfg.maxDie : Int) - (num_die_opp : Int) +
          ((cfg.requiredPoints : Int) - (points_me : Int)) - 1) :
    ∃ d, StatsConsideredBiggest.apply cfg decks_opponent points_me num_die_opp
          = some d ∧
        d ∈ decks_opponent.filter (·.is_undisclosed) := by
  unfold StatsConsideredBiggest.apply pyListGet
  rw [if_pos h0]
  exact ⟨_, List.get?_eq_get h, List.get_mem _ _ _⟩

/--
C8 witness: with caps MAX_DIE = 1, REQUIRED_POINTS = 1 and two undisclosed
opponent decks, the offset (1 − 0) + (1 − 0) − 1 = 1 is in range and the
strategy returns the second undisclosed deck.
-/
theorem StatsConsideredBiggest_in_range_ok_witness :
    ∃ d, StatsConsideredBiggest.apply ⟨1, 1, 1⟩ [c8Deck, c8Deck2] 0 0
          = some d ∧
        d ∈ [c8Deck, c8Deck2].filter (·.is_undisclosed) :=
  StatsConsideredBiggest_in_range_ok ⟨1, 1, 1⟩ [c8Deck, c8Deck2] 0 0
    (by decide) (by decide)

/-! ## `Game.prepare` and round progression (claim C6) -/

/-- The slice of game state that `Game.prepare` consults once a duel is
ongoing: whether the offense/defense committed a duel deck, the duel's
round counter (`Duel._round`, initialised to 1 by `Duel.__init__`), and
how many cards of each committed deck are open (the delegate is open at
deal time, so this is 1 at commitment). -/
structure PrepSt where
  offenseCommitted : Bool
  defenseCommitted : Bool
  round : Nat
  cards_open : Nat
deriving DecidableEq

/-- The message alternatives `Game.prepare` returns. -/
inductive PrepMsg where
  | chooseOffenseDeck
  | chooseDefenseDeck
  | actionPrompt
  | somethingWrong
deriving DecidableEq

/-- Embedding of `Game.prepare`: when both decks are committed and the
round counter is 1 or 2, it opens the next card of each committed deck
(`_open_next_cards`) and advances the round counter
(`duel.to_next_round`), and only then returns the action prompt; the
shout is collected afterwards by `Game.accept` on the updated state. -/
def Game.prepare (s : PrepSt) : PrepMsg × PrepSt :=
  if !s.offenseCommitted then (PrepMsg.chooseOffenseDeck, s)
  else if !s.defenseCommitted then (PrepMsg.chooseDefenseDeck, s)
  else if s.round = 1 ∨ s.round = 2 then
    (PrepMsg.actionPrompt,
      { s with cards_open := s.cards_open + 1, round := s.round + 1 })
  else (PrepMsg.somethingWrong, s)

/-- State of a duel right after both decks are committed: round counter 1
(`Duel.__init__`), one card (the delegate) open per committed deck, no
shout collected yet. -/
def duelStartState : PrepSt :=
  { offenseCommitted := true, defenseCommitted := true, round := 1,
    cards_open := 1 }

/-- The round counters at which the two shout collections of a
double-dare duel happen: each main-loop iteration first runs
`Game.prepare`, then collects the shout on the resulting state. -/
def shoutRounds : List Nat :=
  let first := Game.prepare duelStartState
  let second := Game.prepare first.2
  [first.2.round, second.2.round]

/--
C6 counterexample.  Starting from the committed-decks state with round
counter 1 and no shout yet collected or resolved, the very first
`Game.prepare` call already advances the counter to 2 (and reveals the
second cards) before returning the action prompt, so the duel's first
simultaneous shout is collected while the round counter equals 2, not 1,
and the 1→2 advance happens before any shout has been resolved — refuting
the claim that the shout is collected at counter 1 and that the 1→2
advance only happens as the shout's fallthrough outcome.  The two shouts
of a duel are collected at counters 2 and 3; none is collected at 1.
-/
theorem prepare_advances_round_before_first_shout :
    duelStartState.round = 1 ∧
      (Game.prepare duelStartState).1 = PrepMsg.actionPrompt ∧
      (Game.prepare duelStartState).2.round = 2 ∧
      shoutRounds = [2, 3] ∧ ¬ 1 ∈ shoutRounds := by
  decide

/--
C6 (amended).  For every duel state with both decks committed and round
counter r ∈ {1, 2}, `Game.prepare` reveals the next card of each
committed deck and unconditionally advances the round counter to r + 1
before the shout of that iteration is collected; in particular the first
shout of every duel (which follows the prepare call made at round
counter 1) is collected while the round counter equals 2, and the round
advance is performed by `prepare` prior to any shout resolution, not as a
fallthrough outcome of the shout.
-/
theorem prepare_round_advance (s : PrepSt) (hoff : s.offenseCommitted = true)
    (hdef : s.defenseCommitted = true) (hr : s.round = 1 ∨ s.round = 2) :
    (Game.prepare s).1 = PrepMsg.actionPrompt ∧
      (Game.prepare s).2.round = s.round + 1 ∧
      (Game.prepare s).2.cards_open = s.cards_open + 1 := by
  unfold Game.prepare
  rw [hoff, hdef]
  simp [hr]

/-- C6 amended-claim witness at the concrete duel-start state. -/
theorem prepare_round_advance_witness :
    (Game.prepare duelStartState).1 = PrepMsg.actionPrompt ∧
      (Game.prepare duelStartState).2.round = duelStartState.round + 1 ∧
      (Game.prepare duelStartState).2.cards_open
        = duelStartState.cards_open + 1 :=
  prepare_round_advance duelStartState rfl rfl (Or.inl rfl)

/-! ## `Game.process_shout` (claims C1, C2, C3, C4)

The shout-resolution engine mutates the ongoing duel, both players and
the game; the slice of state it reads and writes is collected in
`ShoutSt`, indexed by duel role (the source iterates
`duel.players = (offense, defense)`). -/

/-- Duel roles; `Duel.players` is the pair (offense, defense) in that
order. -/
inductive Role where
  | offense
  | defense
deriving DecidableEq

def Role.other : Role → Role
  | .offense => .defense
  | .defense => .offense

/-- Per-player state read/written by shout processing: the player's nine
decks, the index of the committed duel deck within them
(`deck_in_duel` aliases `decks[_deck_in_duel_index]`, modelled by
index), the point total, the three shout counters, and `recent_action`
(already reduced to at most one action by the first-shout filter). -/
structure PlayerSt where
  decks : List Deck
  deckInDuelIdx : Option Nat
  points : Nat
  num_shout_die : Nat
  num_shout_done : Nat
  num_shout_draw : Nat
  recentAction : Option Action
deriving DecidableEq

/-- `Player.deck_in_duel`. -/
def PlayerSt.deck_in_duel (p : PlayerSt) : Option Deck :=
  p.deckInDuelIdx.bind (fun i => p.decks.get? i)

/-- Embedding of `Player.valid_actions`: DONE is always valid; DARE plus
(DIE while under `MAX_DIE`) in rounds 1 and 2; IDLE plus (DRAW while
under `MAX_DRAW`) in round 3.  Any other round raises in Python,
modelled by the empty list (shout processing is only invoked for rounds
1-3). -/
def valid_actions (cfg : Config) (p : PlayerSt) (round_ : Nat) : List Action :=
  if round_ = 1 then
    [Action.DONE, Action.DARE] ++
      (if p.num_shout_die < cfg.maxDie then [Action.DIE] else [])
  else if round_ = 2 then
    [Action.DONE, Action.DARE] ++
      (if p.num_shout_die < cfg.maxDie then [Action.DIE] else [])
  else if round_ = 3 then
    [Action.DONE, Action.IDLE] ++
      (if p.num_shout_draw < cfg.maxDraw then [Action.DRAW] else [])
  else []

/-- `ComputerPlayer.disclosed_values`: the distinct values of open cards
across the player's non-undisclosed decks (a Python set; modelled by
`dedup`). -/
def disclosed_values (decks : List Deck) : List Int :=
  (((decks.filter (fun d => !d.is_undisclosed)).map
      (fun d => (d.cards.filter (·.open_)).map (·.value))).flatten).dedup

/-- `Player.is_done`: the number of distinct disclosed values equals the
number of ranks (13, per the spec's rank set A..K = 1..13). -/
def PlayerSt.is_done (p : PlayerSt) : Bool :=
  (disclosed_values p.decks).length == 13

/-- The whole observable state that `Game.process_shout` touches. -/
structure ShoutSt where
  round : Nat
  offense : PlayerSt
  defense : PlayerSt
  duelState : DuelState
  duelOver : Bool
  duelWinner : Option Role
  duelLoser : Option Role
  gameOver : Bool
  gameResult : Option GameResult
  gameWinner : Option Role
deriving DecidableEq

def ShoutSt.player (s : ShoutSt) : Role → PlayerSt
  | .offense => s.offense
  | .defense => s.defense

def ShoutSt.setPlayer (s : ShoutSt) : Role → PlayerSt → ShoutSt
  | .offense, p => { s with offense := p }
  | .defense, p => { s with defense := p }

/-- Sum of the committed deck of role `r`
(`sum(card._value for card in player.deck_in_duel)`); Python raises when
no deck is committed, a state shout processing never runs in, modelled
by 0. -/
def ShoutSt.duelSum (s : ShoutSt) (r : Role) : Int :=
  match (s.player r).deck_in_duel with
  | some d => d.sumValues
  | none => 0

/-- `Duel.is_drawn`: the two committed decks have equal summed value. -/
def Duel.is_drawn (s : ShoutSt) : Bool :=
  s.duelSum Role.offense == s.duelSum Role.defense

/-- `Deck.finish` plus opening every card, as performed by `Duel.end`. -/
def Deck.finishAndOpen (d : Deck) : Deck :=
  { d with state := DeckState.FINISHED,
           cards := d.cards.map (fun c => { c with open_ := true }) }

def listModify (l : List α) (i : Nat) (f : α → α) : List α :=
  match l.get? i with
  | some a => l.set i (f a)
  | none => l

/-- The per-player closing loop of `Duel.end`: if a duel deck is
committed, finish it, open all its cards and clear the commitment. -/
def PlayerSt.closeDuelDeck (p : PlayerSt) : PlayerSt :=
  match p.deckInDuelIdx with
  | none => p
  | some i =>
    { p with decks := listModify p.decks i Deck.finishAndOpen,
             deckInDuelIdx := none }

def ShoutSt.addPoint (s : ShoutSt) (r : Role) : ShoutSt :=
  s.setPlayer r { s.player r with points := (s.player r).points + 1 }

/-- The winner/loser inference and scoring step of `Duel.end`.  Note the
source's quirk in the winner-given case: `if winner == self.offense:
self.loser = self.offense else: self.loser = self.defense`, i.e. the
recorded loser always coincides with the winner; it is embedded as
written (the `loser` field is consulted nowhere else). -/
def scoreStep (s : ShoutSt) : Option Role → Option Role → ShoutSt
  | none, none => s
  | some w, none =>
    let l : Role := if w = Role.offense then Role.offense else Role.defense
    ShoutSt.addPoint { s with duelLoser := some l } w
  | none, some l =>
    let w : Role := if l = Role.offense then Role.defense else Role.offense
    ShoutSt.addPoint { s with duelWinner := some w } w
  | some w, some _ => ShoutSt.addPoint s w

def closeDecks (s : ShoutSt) : ShoutSt :=
  { s with offense := s.offense.closeDuelDeck,
           defense := s.defense.closeDuelDeck }

/-- Embedding of `Duel.end`: mark the duel over with the given end state,
record/infer winner and loser (awarding the winner one point whenever a
winner or loser was supplied), then finish, fully reveal and clear both
committed decks. -/
def Duel.end_ (s : ShoutSt) (st : DuelState) (winner? loser? : Option Role) :
    ShoutSt :=
  closeDecks
    (scoreStep
      { s with duelOver := true, duelState := st, duelWinner := winner?,
               duelLoser := loser? }
      winner? loser?)

/-- Embedding of `Game._end` for the paths reached from shout processing
(a winner is always supplied there). -/
def Game.end_ (s : ShoutSt) (result : GameResult) (winner : Role) : ShoutSt :=
  { s with gameOver := true, gameResult := some result,
           gameWinner := some winner }

/-- The outcome messages `Game.process_shout` can return, with the
game-over flag of the point-awarding outcomes. -/
inductive ShoutMsg where
  | doneAborted (r : Role)
  | died (r : Role)
  | drawnCorrect (r : Role) (gameEnded : Bool)
  | doubleDare
  | sumWin (r : Role) (gameEnded : Bool)
  | sumDrawnDefault (gameEnded : Bool)
  | invalidRound
deriving DecidableEq

/-- Condition of the DONE tier for one player: DONE is among the player's
valid actions and the player's reduced action is DONE. -/
def declaredDone (cfg : Config) (s : ShoutSt) (r : Role) : Bool :=
  decide (Action.DONE ∈ valid_actions cfg (s.player r) s.round) &&
    ((s.player r).recentAction == some Action.DONE)

/-- Condition of the DIE tier for one player. -/
def declaredDie (cfg : Config) (s : ShoutSt) (r : Role) : Bool :=
  decide (Action.DIE ∈ valid_actions cfg (s.player r) s.round) &&
    ((s.player r).recentAction == some Action.DIE)

/-- Condition of the DRAW tier for one player. -/
def declaredDraw (cfg : Config) (s : ShoutSt) (r : Role) : Bool :=
  decide (Action.DRAW ∈ valid_actions cfg (s.player r) s.round) &&
    ((s.player r).recentAction == some Action.DRAW)

def bumpDone (p : PlayerSt) : PlayerSt :=
  { p with num_shout_done := p.num_shout_done + 1 }

def bumpDie (p : PlayerSt) : PlayerSt :=
  { p with num_shout_die := p.num_shout_die + 1 }

def bumpDraw (p : PlayerSt) : PlayerSt :=
  { p with num_shout_draw := p.num_shout_draw + 1 }

/-- One player's slice of the DONE tier: on a declared DONE the done
counter is incremented; if the player `is_done` (full rank set
disclosed) the duel is aborted and the game ends at once with that
player as winner, else processing falls through. -/
def doneStep (cfg : Config) (s : ShoutSt) (r : Role) :
    Option ShoutMsg × ShoutSt :=
  if declaredDone cfg s r then
    let s1 := s.setPlayer r (bumpDone (s.player r))
    if (s1.player r).is_done then
      (some (ShoutMsg.doneAborted r),
        Game.end_ (Duel.end_ s1 DuelState.ABORTED_BY_CORRECT_DONE none none)
          GameResult.DONE r)
    else (none, s1)
  else (none, s)

/-- One player's slice of the DIE tier: a valid declared DIE increments
the die counter and ends the duel DIED with no winner or loser. -/
def dieStep (cfg : Config) (s : ShoutSt) (r : Role) :
    Option ShoutMsg × ShoutSt :=
  if declaredDie cfg s r then
    (some (ShoutMsg.died r),
      Duel.end_ (s.setPlayer r (bumpDie (s.player r))) DuelState.DIED none
        none)
  else (none, s)

/-- One player's slice of the DRAW tier: a valid declared DRAW increments
the draw counter; a correct draw (equal committed sums) ends the duel
DRAWN with the declarer as winner (one point) and ends the game if that
point reaches the required total; an incorrect draw falls through. -/
def drawStep (cfg : Config) (s : ShoutSt) (r : Role) :
    Option ShoutMsg × ShoutSt :=
  if declaredDraw cfg s r then
    let s1 := s.setPlayer r (bumpDraw (s.player r))
    if Duel.is_drawn s1 then
      let s2 := Duel.end_ s1 DuelState.DRAWN (some r) none
      if (s2.player r).points == cfg.requiredPoints then
        (some (ShoutMsg.drawnCorrect r true),
          Game.end_ s2 GameResult.FINISHED r)
      else (some (ShoutMsg.drawnCorrect r false), s2)
    else (none, s1)
  else (none, s)

/-- One tier of the source's `for player in duel.players` loops: the
offense's slice runs first; the defense's slice runs only if the
offense's did not return. -/
def tierLoop (step : ShoutSt → Role → Option ShoutMsg × ShoutSt)
    (s : ShoutSt) : Option ShoutMsg × ShoutSt :=
  match step s Role.offense with
  | (some m, s1) => (some m, s1)
  | (none, s1) => step s1 Role.defense

/-- The game-end check shared by the round-3 outcomes. -/
def finishOutcome (cfg : Config) (s : ShoutSt) (r : Role) : ShoutMsg × ShoutSt :=
  if (s.player r).points == cfg.requiredPoints then
    (ShoutMsg.sumWin r true, Game.end_ s GameResult.FINISHED r)
  else (ShoutMsg.sumWin r false, s)

def drawnDefaultOutcome (cfg : Config) (s : ShoutSt) : ShoutMsg × ShoutSt :=
  if (s.player Role.defense).points == cfg.requiredPoints then
    (ShoutMsg.sumDrawnDefault true, Game.end_ s GameResult.FINISHED
      Role.defense)
  else (ShoutMsg.sumDrawnDefault false, s)

/-- The fallthrough of `Game.process_shout` when no tier returned: in
rounds 1 and 2, double dare (nothing changes; the next `prepare` will
open cards); in round 3, compare the committed decks' sums — the
strictly greater sum wins the duel (FINISHED, one point), equal sums end
it DRAWN with the defense as winner (one point); either branch ends the
game when the awarded point reaches the required total. -/
def fallthroughStep (cfg : Config) (s : ShoutSt) : ShoutMsg × ShoutSt :=
  if s.round = 1 ∨ s.round = 2 then (ShoutMsg.doubleDare, s)
  else if s.round = 3 then
    let sum_offense := s.duelSum Role.offense
    let sum_defense := s.duelSum Role.defense
    if sum_offense > sum_defense then
      finishOutcome cfg
        (Duel.end_ s DuelState.FINISHED (some Role.offense) none) Role.offense
    else if sum_offense < sum_defense then
      finishOutcome cfg
        (Duel.end_ s DuelState.FINISHED (some Role.defense) none) Role.defense
    else
      drawnDefaultOutcome cfg
        (Duel.end_ s DuelState.DRAWN (some Role.defense) none)
  else (ShoutMsg.invalidRound, s)

/-- The DRAW tier followed by the fallthrough — everything of
`Game.process_shout` below the DIE tier. -/
def drawThenFallthrough (cfg : Config) (s : ShoutSt) : ShoutMsg × ShoutSt :=
  match tierLoop (drawStep cfg) s with
  | (some m, s1) => (m, s1)
  | (none, s1) => fallthroughStep cfg s1

/-- The DIE and DRAW tiers followed by the fallthrough — everything of
`Game.process_shout` below the DONE tier. -/
def dieDrawFallthrough (cfg : Config) (s : ShoutSt) : ShoutMsg × ShoutSt :=
  match tierLoop (dieStep cfg) s with
  | (some m, s1) => (m, s1)
  | (none, s1) => drawThenFallthrough cfg s1

/-- The priority chain of `Game.process_shout` on the reduced actions:
DONE tier, then DIE tier, then DRAW tier, then fallthrough, each tier
offense before defense, returning at the first terminal event. -/
def resolveShout (cfg : Config) (s : ShoutSt) : ShoutMsg × ShoutSt :=
  match tierLoop (doneStep cfg) s with
  | (some m, s1) => (m, s1)
  | (none, s1) => dieDrawFallthrough cfg s1

/-- The first-shout reduction of `Game.process_shout`: keep only the
first shout of each player (by identity; modelled by role), recording
its action as the player's `recent_action`. -/
def reduceShouts : List (Role × Option Action) → ShoutSt → Bool → Bool →
    ShoutSt
  | [], s, _, _ => s
  | (r, a) :: rest, s, offHeard, defHeard =>
    match r with
    | Role.offense =>
      if !offHeard then
        reduceShouts rest
          (s.setPlayer Role.offense
            { s.offense with recentAction := a }) true defHeard
      else reduceShouts rest s offHeard defHeard
    | Role.defense =>
      if !defHeard then
        reduceShouts rest
          (s.setPlayer Role.defense
            { s.defense with recentAction := a }) offHeard true
      else reduceShouts rest s offHeard defHeard

/-- Embedding of `Game.process_shout`: reduce the raw shout list to one
recent action per player, then resolve by strict tier priority. -/
def Game.process_shout (cfg : Config) (shouts : List (Role × Option Action))
    (s : ShoutSt) : ShoutMsg × ShoutSt :=
  resolveShout cfg (reduceShouts shouts s false false)

/-- A round in which both players declare a recognized action: one shout
per player, offense's first. -/
def twoShouts (a b : Action) : List (Role × Option Action) :=
  [(Role.offense, some a), (Role.defense, some b)]

/-- The state after the first-shout reduction of `twoShouts a b`. -/
def withTwoActions (s : ShoutSt) (a b : Action) : ShoutSt :=
  { s with offense := { s.offense with recentAction := some a },
           defense := { s.defense with recentAction := some b } }

/-! ### Specification-side resolution order (for C1)

`firstQualifying` is written from the spec's words: scan the six
(tier, role) slots in the order DONE-offense, DONE-defense, DIE-offense,
DIE-defense, DRAW-offense, DRAW-defense and return the first whose
declaration is terminal-triggering ("qualifying"): a correct DONE, a
valid DIE, a correct valid DRAW. -/

/-- A qualifying (terminal-triggering) slot. -/
inductive Qual where
  | done (r : Role)
  | die (r : Role)
  | draw (r : Role)
deriving DecidableEq

def qualifiesDone (cfg : Config) (s : ShoutSt) (r : Role) : Bool :=
  declaredDone cfg s r && (s.player r).is_done

def qualifiesDie (cfg : Config) (s : ShoutSt) (r : Role) : Bool :=
  declaredDie cfg s r

def qualifiesDraw (cfg : Config) (s : ShoutSt) (r : Role) : Bool :=
  declaredDraw cfg s r && Duel.is_drawn s

/-- The first qualifying declaration in the spec's strict priority order
(DONE > DIE > DRAW, offense before defense inside each tier). -/
def firstQualifying (cfg : Config) (s : ShoutSt) : Option Qual :=
  if qualifiesDone cfg s Role.offense then some (Qual.done Role.offense)
  else if qualifiesDone cfg s Role.defense then some (Qual.done Role.defense)
  else if qualifiesDie cfg s Role.offense then some (Qual.die Role.offense)
  else if qualifiesDie cfg s Role.defense then some (Qual.die Role.defense)
  else if qualifiesDraw cfg s Role.offense then some (Qual.draw Role.offense)
  else if qualifiesDraw cfg s Role.defense then some (Qual.draw Role.defense)
  else none

/-- The round outcome dictated by the spec's priority order: the first
qualifying declaration determines it; with none, the fallthrough applies
(double dare in rounds 1-2; in round 3 the sum comparison with the
defense winning equal sums). -/
def specShoutMsg (cfg : Config) (s : ShoutSt) : ShoutMsg :=
  match firstQualifying cfg s with
  | some (Qual.done r) => ShoutMsg.doneAborted r
  | some (Qual.die r) => ShoutMsg.died r
  | some (Qual.draw r) =>
    ShoutMsg.drawnCorrect r ((s.player r).points + 1 == cfg.requiredPoints)
  | none =>
    if s.round = 1 ∨ s.round = 2 then ShoutMsg.doubleDare
    else if s.round = 3 then
      if s.duelSum Role.offense > s.duelSum Role.defense then
        ShoutMsg.sumWin Role.offense
          (s.offense.points + 1 == cfg.requiredPoints)
      else if s.duelSum Role.offense < s.duelSum Role.defense then
        ShoutMsg.sumWin Role.defense
          (s.defense.points + 1 == cfg.requiredPoints)
      else
        ShoutMsg.sumDrawnDefault (s.defense.points + 1 == cfg.requiredPoints)
    else ShoutMsg.invalidRound

/-! ### Infrastructure lemmas for the shout machine -/

@[simp] theorem player_offense (s : ShoutSt) :
    s.player Role.offense = s.offense := rfl

@[simp] theorem player_defense (s : ShoutSt) :
    s.player Role.defense = s.defense := rfl

@[simp] theorem setPlayer_offense (s : ShoutSt) (p : PlayerSt) :
    s.setPlayer Role.offense p = { s with offense := p } := rfl

@[simp] theorem setPlayer_defense (s : ShoutSt) (p : PlayerSt) :
    s.setPlayer Role.defense p = { s with defense := p } := rfl

@[simp] theorem other_offense : Role.other Role.offense = Role.defense := rfl

@[simp] theorem other_defense : Role.other Role.defense = Role.offense := rfl

@[simp] theorem bumpDone_is_done (p : PlayerSt) :
    (bumpDone p).is_done = p.is_done := rfl

@[simp] theorem bumpDone_recent (p : PlayerSt) :
    (bumpDone p).recentAction = p.recentAction := rfl

@[simp] theorem bumpDone_die (p : PlayerSt) :
    (bumpDone p).num_shout_die = p.num_shout_die := rfl

@[simp] theorem bumpDone_draw (p : PlayerSt) :
    (bumpDone p).num_shout_draw = p.num_shout_draw := rfl

@[simp] theorem bumpDone_done (p : PlayerSt) :
    (bumpDone p).num_shout_done = p.num_shout_done + 1 := rfl

@[simp] theorem bumpDone_points (p : PlayerSt) :
    (bumpDone p).points = p.points := rfl

@[simp] theorem bumpDone_decks (p : PlayerSt) :
    (bumpDone p).decks = p.decks := rfl

@[simp] theorem bumpDone_idx (p : PlayerSt) :
    (bumpDone p).deckInDuelIdx = p.deckInDuelIdx := rfl

@[simp] theorem bumpDie_recent (p : PlayerSt) :
    (bumpDie p).recentAction = p.recentAction := rfl

@[simp] theorem bumpDie_die (p : PlayerSt) :
    (bumpDie p).num_shout_die = p.num_shout_die + 1 := rfl

@[simp] theorem bumpDie_done (p : PlayerSt) :
    (bumpDie p).num_shout_done = p.num_shout_done := rfl

@[simp] theorem bumpDie_draw (p : PlayerSt) :
    (bumpDie p).num_shout_draw = p.num_shout_draw := rfl

@[simp] theorem bumpDie_points (p : PlayerSt) :
    (bumpDie p).points = p.points := rfl

@[simp] theorem bumpDie_decks (p : PlayerSt) :
    (bumpDie p).decks = p.decks := rfl

@[simp] theorem bumpDie_idx (p : PlayerSt) :
    (bumpDie p).deckInDuelIdx = p.deckInDuelIdx := rfl

@[simp] theorem bumpDraw_recent (p : PlayerSt) :
    (bumpDraw p).recentAction = p.recentAction := rfl

@[simp] theorem bumpDraw_die (p : PlayerSt) :
    (bumpDraw p).num_shout_die = p.num_shout_die := rfl

@[simp] theorem bumpDraw_done (p : PlayerSt) :
    (bumpDraw p).num_shout_done = p.num_shout_done := rfl

@[simp] theorem bumpDraw_draw (p : PlayerSt) :
    (bumpDraw p).num_shout_draw = p.num_shout_draw + 1 := rfl

@[simp] theorem bumpDraw_points (p : PlayerSt) :
    (bumpDraw p).points = p.points := rfl

@[simp] theorem bumpDraw_decks (p : PlayerSt) :
    (bumpDraw p).decks = p.decks := rfl

@[simp] theorem bumpDraw_idx (p : PlayerSt) :
    (bumpDraw p).deckInDuelIdx = p.deckInDuelIdx := rfl

@[simp] theorem bumpDraw_is_done (p : PlayerSt) :
    (bumpDraw p).is_done = p.is_done := rfl

@[simp] theorem closeDuelDeck_points (p : PlayerSt) :
    p.closeDuelDeck.points = p.points := by
  rcases hp : p.deckInDuelIdx with _ | i <;> simp [PlayerSt.closeDuelDeck, hp]

@[simp] theorem closeDuelDeck_die (p : PlayerSt) :
    p.closeDuelDeck.num_shout_die = p.num_shout_die := by
  rcases hp : p.deckInDuelIdx with _ | i <;> simp [PlayerSt.closeDuelDeck, hp]

@[simp] theorem closeDuelDeck_done (p : PlayerSt) :
    p.closeDuelDeck.num_shout_done = p.num_shout_done := by
  rcases hp : p.deckInDuelIdx with _ | i <;> simp [PlayerSt.closeDuelDeck, hp]

@[simp] theorem closeDuelDeck_draw (p : PlayerSt) :
    p.closeDuelDeck.num_shout_draw = p.num_shout_draw := by
  rcases hp : p.deckInDuelIdx with _ | i <;> simp [PlayerSt.closeDuelDeck, hp]

@[simp] theorem closeDuelDeck_recent (p : PlayerSt) :
    p.closeDuelDeck.recentAction = p.recentAction := by
  rcases hp : p.deckInDuelIdx with _ | i <;> simp [PlayerSt.closeDuelDeck, hp]

@[simp] theorem closeDuelDeck_idx (p : PlayerSt) :
    p.closeDuelDeck.deckInDuelIdx = none := by
  rcases hp : p.deckInDuelIdx with _ | i <;> simp [PlayerSt.closeDuelDeck, hp]

theorem closeDuelDeck_decks_some (p : PlayerSt) (i : Nat)
    (h : p.deckInDuelIdx = some i) :
    p.closeDuelDeck.decks = listModify p.decks i Deck.finishAndOpen := by
  simp [PlayerSt.closeDuelDeck, h]

/-- `Action.DONE` is valid in every round 1-3 (and only there). -/
theorem declaredDone_eq (cfg : Config) (s : ShoutSt) (r : Role) :
    declaredDone cfg s r =
      (decide (s.round = 1 ∨ s.round = 2 ∨ s.round = 3) &&
        ((s.player r).recentAction == some Action.DONE)) := by
  unfold declaredDone valid_actions
  by_cases h1 : s.round = 1 <;> by_cases h2 : s.round = 2 <;>
    by_cases h3 : s.round = 3 <;> simp [h1, h2, h3]

/-- `Action.DIE` is valid exactly in rounds 1-2 while under the die cap. -/
theorem declaredDie_eq (cfg : Config) (s : ShoutSt) (r : Role) :
    declaredDie cfg s r =
      (decide (s.round = 1 ∨ s.round = 2) &&
        decide ((s.player r).num_shout_die < cfg.maxDie) &&
        ((s.player r).recentAction == some Action.DIE)) := by
  unfold declaredDie valid_actions
  by_cases h1 : s.round = 1 <;> by_cases h2 : s.round = 2 <;>
    by_cases h3 : s.round = 3 <;>
    by_cases hc : (s.player r).num_shout_die < cfg.maxDie <;>
    by_cases hd : (s.player r).num_shout_draw < cfg.maxDraw <;>
    simp [h1, h2, h3, hc, hd]

/-- `Action.DRAW` is valid exactly in round 3 while under the draw cap. -/
theorem declaredDraw_eq (cfg : Config) (s : ShoutSt) (r : Role) :
    declaredDraw cfg s r =
      (decide (s.round = 3) &&
        decide ((s.player r).num_shout_draw < cfg.maxDraw) &&
        ((s.player r).recentAction == some Action.DRAW)) := by
  unfold declaredDraw valid_actions
  by_cases h1 : s.round = 1 <;> by_cases h2 : s.round = 2 <;>
    by_cases h3 : s.round = 3 <;>
    by_cases hc : (s.player r).num_shout_die < cfg.maxDie <;>
    by_cases hd : (s.player r).num_shout_draw < cfg.maxDraw <;>
    simp [h1, h2, h3, hc, hd]

theorem process_shout_twoShouts (cfg : Config) (a b : Action) (s : ShoutSt) :
    Game.process_shout cfg (twoShouts a b) s
      = resolveShout cfg (withTwoActions s a b) := rfl

/-- State after the offense's slice of a fully non-terminal DONE tier. -/
def postDoneOff (cfg : Config) (s : ShoutSt) : ShoutSt :=
  { s with offense :=
      (if declaredDone cfg s Role.offense then bumpDone s.offense
       else s.offense) }

/-- State after a fully non-terminal DONE tier: each player who declared
DONE (incorrectly) has their done counter incremented. -/
def postDone (cfg : Config) (s : ShoutSt) : ShoutSt :=
  { (postDoneOff cfg s) with defense :=
      (if declaredDone cfg s Role.defense then bumpDone s.defense
       else s.defense) }

/-- State after a fully non-terminal DRAW tier: each player whose DRAW was
valid and declared (but incorrect) has their draw counter incremented. -/
def postDraw (cfg : Config) (s : ShoutSt) : ShoutSt :=
  { s with
    offense :=
      (if declaredDraw cfg s Role.offense then bumpDraw s.offense
       else s.offense),
    defense :=
      (if declaredDraw cfg s Role.defense then bumpDraw s.defense
       else s.defense) }

@[simp] theorem postDone_round (cfg : Config) (s : ShoutSt) :
    (postDone cfg s).round = s.round := rfl

@[simp] theorem postDraw_round (cfg : Config) (s : ShoutSt) :
    (postDraw cfg s).round = s.round := rfl

@[simp] theorem postDone_offense_die (cfg : Config) (s : ShoutSt) :
    (postDone cfg s).offense.num_shout_die = s.offense.num_shout_die := by
  by_cases h : declaredDone cfg s Role.offense <;> simp [postDone, postDoneOff, h]

@[simp] theorem postDone_defense_die (cfg : Config) (s : ShoutSt) :
    (postDone cfg s).defense.num_shout_die = s.defense.num_shout_die := by
  by_cases h : declaredDone cfg s Role.defense <;> simp [postDone, postDoneOff, h]

@[simp] theorem postDone_offense_draw (cfg : Config) (s : ShoutSt) :
    (postDone cfg s).offense.num_shout_draw = s.offense.num_shout_draw := by
  by_cases h : declaredDone cfg s Role.offense <;> simp [postDone, postDoneOff, h]

@[simp] theorem postDone_defense_draw (cfg : Config) (s : ShoutSt) :
    (postDone cfg s).defense.num_shout_draw = s.defense.num_shout_draw := by
  by_cases h : declaredDone cfg s Role.defense <;> simp [postDone, postDoneOff, h]

@[simp] theorem postDone_offense_recent (cfg : Config) (s : ShoutSt) :
    (postDone cfg s).offense.recentAction = s.offense.recentAction := by
  by_cases h : declaredDone cfg s Role.offense <;> simp [postDone, postDoneOff, h]

@[simp] theorem postDone_defense_recent (cfg : Config) (s : ShoutSt) :
    (postDone cfg s).defense.recentAction = s.defense.recentAction := by
  by_cases h : declaredDone cfg s Role.defense <;> simp [postDone, postDoneOff, h]

@[simp] theorem postDone_offense_points (cfg : Config) (s : ShoutSt) :
    (postDone cfg s).offense.points = s.offense.points := by
  by_cases h : declaredDone cfg s Role.offense <;> simp [postDone, postDoneOff, h]

@[simp] theorem postDone_defense_points (cfg : Config) (s : ShoutSt) :
    (postDone cfg s).defense.points = s.defense.points := by
  by_cases h : declaredDone cfg s Role.defense <;> simp [postDone, postDoneOff, h]

@[simp] theorem postDone_offense_decks (cfg : Config) (s : ShoutSt) :
    (postDone cfg s).offense.decks = s.offense.decks := by
  by_cases h : declaredDone cfg s Role.offense <;> simp [postDone, postDoneOff, h]

@[simp] theorem postDone_defense_decks (cfg : Config) (s : ShoutSt) :
    (postDone cfg s).defense.decks = s.defense.decks := by
  by_cases h : declaredDone cfg s Role.defense <;> simp [postDone, postDoneOff, h]

@[simp] theorem postDone_offense_idx (cfg : Config) (s : ShoutSt) :
    (postDone cfg s).offense.deckInDuelIdx = s.offense.deckInDuelIdx := by
  by_cases h : declaredDone cfg s Role.offense <;> simp [postDone, postDoneOff, h]

@[simp] theorem postDone_defense_idx (cfg : Config) (s : ShoutSt) :
    (postDone cfg s).defense.deckInDuelIdx = s.defense.deckInDuelIdx := by
  by_cases h : declaredDone cfg s Role.defense <;> simp [postDone, postDoneOff, h]

@[simp] theorem postDone_duelState (cfg : Config) (s : ShoutSt) :
    (postDone cfg s).duelState = s.duelState := rfl

@[simp] theorem postDone_duelOver (cfg : Config) (s : ShoutSt) :
    (postDone cfg s).duelOver = s.duelOver := rfl

@[simp] theorem postDone_gameOver (cfg : Config) (s : ShoutSt) :
    (postDone cfg s).gameOver = s.gameOver := rfl

@[simp] theorem postDone_gameWinner (cfg : Config) (s : ShoutSt) :
    (postDone cfg s).gameWinner = s.gameWinner := rfl

@[simp] theorem postDone_duelWinner (cfg : Config) (s : ShoutSt) :
    (postDone cfg s).duelWinner = s.duelWinner := rfl

theorem postDone_offense_done (cfg : Config) (s : ShoutSt) :
    (postDone cfg s).offense.num_shout_done =
      (if declaredDone cfg s Role.offense then s.offense.num_shout_done + 1
        else s.offense.num_shout_done) := by
  by_cases h : declaredDone cfg s Role.offense <;> simp [postDone, postDoneOff, h]

theorem postDone_defense_done (cfg : Config) (s : ShoutSt) :
    (postDone cfg s).defense.num_shout_done =
      (if declaredDone cfg s Role.defense then s.defense.num_shout_done + 1
        else s.defense.num_shout_done) := by
  by_cases h : declaredDone cfg s Role.defense <;> simp [postDone, postDoneOff, h]

theorem duelSum_congr (s t : ShoutSt)
    (ho : t.offense.decks = s.offense.decks)
    (ho2 : t.offense.deckInDuelIdx = s.offense.deckInDuelIdx)
    (hd : t.defense.decks = s.defense.decks)
    (hd2 : t.defense.deckInDuelIdx = s.defense.deckInDuelIdx) (r : Role) :
    t.duelSum r = s.duelSum r := by
  cases r <;> simp [ShoutSt.duelSum, PlayerSt.deck_in_duel, ho, ho2, hd, hd2]

@[simp] theorem duelSum_postDone (cfg : Config) (s : ShoutSt) (r : Role) :
    (postDone cfg s).duelSum r = s.duelSum r := by
  exact duelSum_congr s _ (by simp) (by simp) (by simp) (by simp) r

@[simp] theorem is_drawn_postDone (cfg : Config) (s : ShoutSt) :
    Duel.is_drawn (postDone cfg s) = Duel.is_drawn s := by
  simp [Duel.is_drawn]

/-! Preservation lemmas for `Duel.end_` (in the call shapes `process_shout`
uses: the loser argument is always `none` there). -/

@[simp] theorem end_duelState (s : ShoutSt) (st : DuelState)
    (w : Option Role) : (Duel.end_ s st w none).duelState = st := by
  rcases w with _ | (_ | _) <;>
    simp [Duel.end_, scoreStep, closeDecks, ShoutSt.addPoint]

@[simp] theorem end_duelOver (s : ShoutSt) (st : DuelState)
    (w : Option Role) : (Duel.end_ s st w none).duelOver = true := by
  rcases w with _ | (_ | _) <;>
    simp [Duel.end_, scoreStep, closeDecks, ShoutSt.addPoint]

@[simp] theorem end_round (s : ShoutSt) (st : DuelState)
    (w : Option Role) : (Duel.end_ s st w none).round = s.round := by
  rcases w with _ | (_ | _) <;>
    simp [Duel.end_, scoreStep, closeDecks, ShoutSt.addPoint]

@[simp] theorem end_gameOver (s : ShoutSt) (st : DuelState)
    (w : Option Role) : (Duel.end_ s st w none).gameOver = s.gameOver := by
  rcases w with _ | (_ | _) <;>
    simp [Duel.end_, scoreStep, closeDecks, ShoutSt.addPoint]

@[simp] theorem end_gameResult (s : ShoutSt) (st : DuelState)
    (w : Option Role) : (Duel.end_ s st w none).gameResult = s.gameResult := by
  rcases w with _ | (_ | _) <;>
    simp [Duel.end_, scoreStep, closeDecks, ShoutSt.addPoint]

@[simp] theorem end_gameWinner (s : ShoutSt) (st : DuelState)
    (w : Option Role) : (Duel.end_ s st w none).gameWinner = s.gameWinner := by
  rcases w with _ | (_ | _) <;>
    simp [Duel.end_, scoreStep, closeDecks, ShoutSt.addPoint]

@[simp] theorem end_duelWinner (s : ShoutSt) (st : DuelState)
    (w : Option Role) : (Duel.end_ s st w none).duelWinner = w := by
  rcases w with _ | (_ | _) <;>
    simp [Duel.end_, scoreStep, closeDecks, ShoutSt.addPoint]

@[simp] theorem end_player_die (s : ShoutSt) (st : DuelState)
    (w : Option Role) (r : Role) :
    ((Duel.end_ s st w none).player r).num_shout_die
      = (s.player r).num_shout_die := by
  rcases w with _ | (_ | _) <;> cases r <;>
    simp [Duel.end_, scoreStep, closeDecks, ShoutSt.addPoint]

@[simp] theorem end_player_done (s : ShoutSt) (st : DuelState)
    (w : Option Role) (r : Role) :
    ((Duel.end_ s st w none).player r).num_shout_done
      = (s.player r).num_shout_done := by
  rcases w with _ | (_ | _) <;> cases r <;>
    simp [Duel.end_, scoreStep, closeDecks, ShoutSt.addPoint]

@[simp] theorem end_player_draw (s : ShoutSt) (st : DuelState)
    (w : Option Role) (r : Role) :
    ((Duel.end_ s st w none).player r).num_shout_draw
      = (s.player r).num_shout_draw := by
  rcases w with _ | (_ | _) <;> cases r <;>
    simp [Duel.end_, scoreStep, closeDecks, ShoutSt.addPoint]

@[simp] theorem end_player_idx (s : ShoutSt) (st : DuelState)
    (w : Option Role) (r : Role) :
    ((Duel.end_ s st w none).player r).deckInDuelIdx = none := by
  rcases w with _ | (_ | _) <;> cases r <;>
    simp [Duel.end_, scoreStep, closeDecks, ShoutSt.addPoint]

theorem end_points_none (s : ShoutSt) (st : DuelState) (r : Role) :
    ((Duel.end_ s st none none).player r).points = (s.player r).points := by
  cases r <;> simp [Duel.end_, scoreStep, closeDecks, ShoutSt.addPoint]

theorem end_points_self (s : ShoutSt) (st : DuelState) (r : Role) :
    ((Duel.end_ s st (some r) none).player r).points
      = (s.player r).points + 1 := by
  cases r <;> simp [Duel.end_, scoreStep, closeDecks, ShoutSt.addPoint]

theorem end_points_other (s : ShoutSt) (st : DuelState) (r r' : Role)
    (h : r' ≠ r) :
    ((Duel.end_ s st (some r) none).player r').points
      = (s.player r').points := by
  cases r <;> cases r' <;>
    simp_all [Duel.end_, scoreStep, closeDecks, ShoutSt.addPoint]

theorem end_decks_none (s : ShoutSt) (st : DuelState) (r : Role) :
    ((Duel.end_ s st none none).player r).decks
      = ((s.player r).closeDuelDeck).decks := by
  cases r <;> simp [Duel.end_, scoreStep, closeDecks]

/-! Congruence lemmas: the tier conditions of one role are untouched by
updates to the other role's player, and by counter bumps that do not feed
the condition. -/

@[simp] theorem declaredDone_upd_off (cfg : Config) (s : ShoutSt)
    (p : PlayerSt) :
    declaredDone cfg { s with offense := p } Role.defense
      = declaredDone cfg s Role.defense := rfl

@[simp] theorem declaredDone_upd_def (cfg : Config) (s : ShoutSt)
    (p : PlayerSt) :
    declaredDone cfg { s with defense := p } Role.offense
      = declaredDone cfg s Role.offense := rfl

@[simp] theorem declaredDie_upd_off (cfg : Config) (s : ShoutSt)
    (p : PlayerSt) :
    declaredDie cfg { s with offense := p } Role.defense
      = declaredDie cfg s Role.defense := rfl

@[simp] theorem declaredDie_upd_def (cfg : Config) (s : ShoutSt)
    (p : PlayerSt) :
    declaredDie cfg { s with defense := p } Role.offense
      = declaredDie cfg s Role.offense := rfl

@[simp] theorem declaredDraw_upd_off (cfg : Config) (s : ShoutSt)
    (p : PlayerSt) :
    declaredDraw cfg { s with offense := p } Role.defense
      = declaredDraw cfg s Role.defense := rfl

@[simp] theorem declaredDraw_upd_def (cfg : Config) (s : ShoutSt)
    (p : PlayerSt) :
    declaredDraw cfg { s with defense := p } Role.offense
      = declaredDraw cfg s Role.offense := rfl

@[simp] theorem declaredDie_postDone (cfg : Config) (s : ShoutSt) (r : Role) :
    declaredDie cfg (postDone cfg s) r = declaredDie cfg s r := by
  rw [declaredDie_eq, declaredDie_eq]
  cases r <;> simp

@[simp] theorem declaredDraw_postDone (cfg : Config) (s : ShoutSt) (r : Role) :
    declaredDraw cfg (postDone cfg s) r = declaredDraw cfg s r := by
  rw [declaredDraw_eq, declaredDraw_eq]
  cases r <;> simp

@[simp] theorem duelSum_upd_off_bumpDraw (s : ShoutSt) (r : Role) :
    ShoutSt.duelSum { s with offense := bumpDraw s.offense } r
      = s.duelSum r := by
  cases r <;> rfl

@[simp] theorem duelSum_upd_def_bumpDraw (s : ShoutSt) (r : Role) :
    ShoutSt.duelSum { s with defense := bumpDraw s.defense } r
      = s.duelSum r := by
  cases r <;> rfl

@[simp] theorem is_drawn_upd_off_bumpDraw (s : ShoutSt) :
    Duel.is_drawn { s with offense := bumpDraw s.offense }
      = Duel.is_drawn s := by
  simp [Duel.is_drawn]

@[simp] theorem is_drawn_upd_def_bumpDraw (s : ShoutSt) :
    Duel.is_drawn { s with defense := bumpDraw s.defense }
      = Duel.is_drawn s := by
  simp [Duel.is_drawn]

@[simp] theorem is_drawn_upd_both_bumpDraw (s : ShoutSt) :
    Duel.is_drawn
        { s with offense := bumpDraw s.offense,
                 defense := bumpDraw s.defense }
      = Duel.is_drawn s := rfl

@[simp] theorem duelSum_upd_both_bumpDraw (s : ShoutSt) (r : Role) :
    ShoutSt.duelSum
        { s with offense := bumpDraw s.offense,
                 defense := bumpDraw s.defense } r
      = s.duelSum r := by
  cases r <;> rfl

@[simp] theorem postDraw_offense_points (cfg : Config) (s : ShoutSt) :
    (postDraw cfg s).offense.points = s.offense.points := by
  by_cases h : declaredDraw cfg s Role.offense <;> simp [postDraw, h]

@[simp] theorem postDraw_defense_points (cfg : Config) (s : ShoutSt) :
    (postDraw cfg s).defense.points = s.defense.points := by
  by_cases h : declaredDraw cfg s Role.defense <;> simp [postDraw, h]

@[simp] theorem postDraw_offense_die (cfg : Config) (s : ShoutSt) :
    (postDraw cfg s).offense.num_shout_die = s.offense.num_shout_die := by
  by_cases h : declaredDraw cfg s Role.offense <;> simp [postDraw, h]

@[simp] theorem postDraw_defense_die (cfg : Config) (s : ShoutSt) :
    (postDraw cfg s).defense.num_shout_die = s.defense.num_shout_die := by
  by_cases h : declaredDraw cfg s Role.defense <;> simp [postDraw, h]

@[simp] theorem postDraw_offense_done (cfg : Config) (s : ShoutSt) :
    (postDraw cfg s).offense.num_shout_done = s.offense.num_shout_done := by
  by_cases h : declaredDraw cfg s Role.offense <;> simp [postDraw, h]

@[simp] theorem postDraw_defense_done (cfg : Config) (s : ShoutSt) :
    (postDraw cfg s).defense.num_shout_done = s.defense.num_shout_done := by
  by_cases h : declaredDraw cfg s Role.defense <;> simp [postDraw, h]

@[simp] theorem postDraw_offense_decks (cfg : Config) (s : ShoutSt) :
    (postDraw cfg s).offense.decks = s.offense.decks := by
  by_cases h : declaredDraw cfg s Role.offense <;> simp [postDraw, h]

@[simp] theorem postDraw_defense_decks (cfg : Config) (s : ShoutSt) :
    (postDraw cfg s).defense.decks = s.defense.decks := by
  by_cases h : declaredDraw cfg s Role.defense <;> simp [postDraw, h]

@[simp] theorem postDraw_offense_idx (cfg : Config) (s : ShoutSt) :
    (postDraw cfg s).offense.deckInDuelIdx = s.offense.deckInDuelIdx := by
  by_cases h : declaredDraw cfg s Role.offense <;> simp [postDraw, h]

@[simp] theorem postDraw_defense_idx (cfg : Config) (s : ShoutSt) :
    (postDraw cfg s).defense.deckInDuelIdx = s.defense.deckInDuelIdx := by
  by_cases h : declaredDraw cfg s Role.defense <;> simp [postDraw, h]

@[simp] theorem postDraw_duelState (cfg : Config) (s : ShoutSt) :
    (postDraw cfg s).duelState = s.duelState := rfl

@[simp] theorem postDraw_duelOver (cfg : Config) (s : ShoutSt) :
    (postDraw cfg s).duelOver = s.duelOver := rfl

@[simp] theorem postDraw_gameOver (cfg : Config) (s : ShoutSt) :
    (postDraw cfg s).gameOver = s.gameOver := rfl

@[simp] theorem postDraw_gameWinner (cfg : Config) (s : ShoutSt) :
    (postDraw cfg s).gameWinner = s.gameWinner := rfl

@[simp] theorem postDraw_duelWinner (cfg : Config) (s : ShoutSt) :
    (postDraw cfg s).duelWinner = s.duelWinner := rfl

@[simp] theorem duelSum_postDraw (cfg : Config) (s : ShoutSt) (r : Role) :
    (postDraw cfg s).duelSum r = s.duelSum r := by
  exact duelSum_congr s _ (by simp) (by simp) (by simp) (by simp) r

/-! Projection-form corollaries of the `Duel.end_` lemmas (the shapes left
by simp after it normalises `player` applications). -/

@[simp] theorem end_offense_points_self (s : ShoutSt) (st : DuelState) :
    (Duel.end_ s st (some Role.offense) none).offense.points
      = s.offense.points + 1 := by
  have h := end_points_self s st Role.offense
  simpa using h

@[simp] theorem end_defense_points_self (s : ShoutSt) (st : DuelState) :
    (Duel.end_ s st (some Role.defense) none).defense.points
      = s.defense.points + 1 := by
  have h := end_points_self s st Role.defense
  simpa using h

@[simp] theorem end_offense_points_other (s : ShoutSt) (st : DuelState) :
    (Duel.end_ s st (some Role.defense) none).offense.points
      = s.offense.points := by
  have h := end_points_other s st Role.defense Role.offense (by decide)
  simpa using h

@[simp] theorem end_defense_points_other (s : ShoutSt) (st : DuelState) :
    (Duel.end_ s st (some Role.offense) none).defense.points
      = s.defense.points := by
  have h := end_points_other s st Role.offense Role.defense (by decide)
  simpa using h

@[simp] theorem end_offense_points_none (s : ShoutSt) (st : DuelState) :
    (Duel.end_ s st none none).offense.points = s.offense.points := by
  have h := end_points_none s st Role.offense
  simpa using h

@[simp] theorem end_defense_points_none (s : ShoutSt) (st : DuelState) :
    (Duel.end_ s st none none).defense.points = s.defense.points := by
  have h := end_points_none s st Role.defense
  simpa using h

@[simp] theorem end_offense_die (s : ShoutSt) (st : DuelState)
    (w : Option Role) :
    (Duel.end_ s st w none).offense.num_shout_die
      = s.offense.num_shout_die := by
  have h := end_player_die s st w Role.offense
  simpa using h

@[simp] theorem end_defense_die (s : ShoutSt) (st : DuelState)
    (w : Option Role) :
    (Duel.end_ s st w none).defense.num_shout_die
      = s.defense.num_shout_die := by
  have h := end_player_die s st w Role.defense
  simpa using h

@[simp] theorem end_offense_done (s : ShoutSt) (st : DuelState)
    (w : Option Role) :
    (Duel.end_ s st w none).offense.num_shout_done
      = s.offense.num_shout_done := by
  have h := end_player_done s st w Role.offense
  simpa using h

@[simp] theorem end_defense_done (s : ShoutSt) (st : DuelState)
    (w : Option Role) :
    (Duel.end_ s st w none).defense.num_shout_done
      = s.defense.num_shout_done := by
  have h := end_player_done s st w Role.defense
  simpa using h

@[simp] theorem end_offense_draw (s : ShoutSt) (st : DuelState)
    (w : Option Role) :
    (Duel.end_ s st w none).offense.num_shout_draw
      = s.offense.num_shout_draw := by
  have h := end_player_draw s st w Role.offense
  simpa using h

@[simp] theorem end_defense_draw (s : ShoutSt) (st : DuelState)
    (w : Option Role) :
    (Duel.end_ s st w none).defense.num_shout_draw
      = s.defense.num_shout_draw := by
  have h := end_player_draw s st w Role.defense
  simpa using h

@[simp] theorem end_offense_idx (s : ShoutSt) (st : DuelState)
    (w : Option Role) :
    (Duel.end_ s st w none).offense.deckInDuelIdx = none := by
  have h := end_player_idx s st w Role.offense
  simpa using h

@[simp] theorem end_defense_idx (s : ShoutSt) (st : DuelState)
    (w : Option Role) :
    (Duel.end_ s st w none).defense.deckInDuelIdx = none := by
  have h := end_player_idx s st w Role.defense
  simpa using h

theorem end_offense_decks_none (s : ShoutSt) (st : DuelState) :
    (Duel.end_ s st none none).offense.decks
      = s.offense.closeDuelDeck.decks := by
  have h := end_decks_none s st Role.offense
  simpa using h

theorem end_defense_decks_none (s : ShoutSt) (st : DuelState) :
    (Duel.end_ s st none none).defense.decks
      = s.defense.closeDuelDeck.decks := by
  have h := end_decks_none s st Role.defense
  simpa using h

@[simp] theorem gameEnd_offense (s : ShoutSt) (res : GameResult) (w : Role) :
    (Game.end_ s res w).offense = s.offense := rfl

@[simp] theorem gameEnd_defense (s : ShoutSt) (res : GameResult) (w : Role) :
    (Game.end_ s res w).defense = s.defense := rfl

@[simp] theorem gameEnd_duelState (s : ShoutSt) (res : GameResult) (w : Role) :
    (Game.end_ s res w).duelState = s.duelState := rfl

@[simp] theorem gameEnd_duelOver (s : ShoutSt) (res : GameResult) (w : Role) :
    (Game.end_ s res w).duelOver = s.duelOver := rfl

@[simp] theorem gameEnd_duelWinner (s : ShoutSt) (res : GameResult) (w : Role) :
    (Game.end_ s res w).duelWinner = s.duelWinner := rfl

@[simp] theorem gameEnd_round (s : ShoutSt) (res : GameResult) (w : Role) :
    (Game.end_ s res w).round = s.round := rfl

@[simp] theorem gameEnd_gameOver (s : ShoutSt) (res : GameResult) (w : Role) :
    (Game.end_ s res w).gameOver = true := rfl

@[simp] theorem gameEnd_gameWinner (s : ShoutSt) (res : GameResult) (w : Role) :
    (Game.end_ s res w).gameWinner = some w := rfl

@[simp] theorem gameEnd_gameResult (s : ShoutSt) (res : GameResult) (w : Role) :
    (Game.end_ s res w).gameResult = some res := rfl

/-! Characterization of each tier of `process_shout`. -/

theorem tier_done_off (cfg : Config) (s : ShoutSt)
    (h1 : declaredDone cfg s Role.offense = true)
    (h2 : s.offense.is_done = true) :
    tierLoop (doneStep cfg) s =
      (some (ShoutMsg.doneAborted Role.offense),
        Game.end_
          (Duel.end_ { s with offense := bumpDone s.offense }
            DuelState.ABORTED_BY_CORRECT_DONE none none)
          GameResult.DONE Role.offense) := by
  simp [tierLoop, doneStep, h1, h2]

theorem tier_done_def (cfg : Config) (s : ShoutSt)
    (h1 : qualifiesDone cfg s Role.offense = false)
    (h2 : declaredDone cfg s Role.defense = true)
    (h3 : s.defense.is_done = true) :
    tierLoop (doneStep cfg) s =
      (some (ShoutMsg.doneAborted Role.defense),
        Game.end_
          (Duel.end_
            { (postDoneOff cfg s) with defense := bumpDone s.defense }
            DuelState.ABORTED_BY_CORRECT_DONE none none)
          GameResult.DONE Role.defense) := by
  by_cases hd : declaredDone cfg s Role.offense
  · have hnd : s.offense.is_done = false := by
      simp [qualifiesDone, hd] at h1
      exact h1
    simp [tierLoop, doneStep, hd, hnd, h2, h3, postDoneOff]
  · simp only [Bool.not_eq_true] at hd
    simp [tierLoop, doneStep, hd, h2, h3, postDoneOff]

theorem tier_done_none (cfg : Config) (s : ShoutSt)
    (h1 : qualifiesDone cfg s Role.offense = false)
    (h2 : qualifiesDone cfg s Role.defense = false) :
    tierLoop (doneStep cfg) s = (none, postDone cfg s) := by
  by_cases d1 : declaredDone cfg s Role.offense <;>
    by_cases d2 : declaredDone cfg s Role.defense
  · have hnd1 : s.offense.is_done = false := by
      simp [qualifiesDone, d1] at h1; exact h1
    have hnd2 : s.defense.is_done = false := by
      simp [qualifiesDone, d2] at h2; exact h2
    simp [tierLoop, doneStep, d1, d2, hnd1, hnd2, postDone, postDoneOff]
  · have hnd1 : s.offense.is_done = false := by
      simp [qualifiesDone, d1] at h1; exact h1
    simp only [Bool.not_eq_true] at d2
    simp [tierLoop, doneStep, d1, d2, hnd1, postDone, postDoneOff]
  · have hnd2 : s.defense.is_done = false := by
      simp [qualifiesDone, d2] at h2; exact h2
    simp only [Bool.not_eq_true] at d1
    simp [tierLoop, doneStep, d1, d2, hnd2, postDone, postDoneOff]
  · simp only [Bool.not_eq_true] at d1 d2
    simp [tierLoop, doneStep, d1, d2, postDone, postDoneOff]

theorem tier_die_off (cfg : Config) (s : ShoutSt)
    (h : declaredDie cfg s Role.offense = true) :
    tierLoop (dieStep cfg) s =
      (some (ShoutMsg.died Role.offense),
        Duel.end_ { s with offense := bumpDie s.offense } DuelState.DIED
          none none) := by
  simp [tierLoop, dieStep, h]

theorem tier_die_def (cfg : Config) (s : ShoutSt)
    (h1 : declaredDie cfg s Role.offense = false)
    (h2 : declaredDie cfg s Role.defense = true) :
    tierLoop (dieStep cfg) s =
      (some (ShoutMsg.died Role.defense),
        Duel.end_ { s with defense := bumpDie s.defense } DuelState.DIED
          none none) := by
  simp [tierLoop, dieStep, h1, h2]

theorem tier_die_none (cfg : Config) (s : ShoutSt)
    (h1 : declaredDie cfg s Role.offense = false)
    (h2 : declaredDie cfg s Role.defense = false) :
    tierLoop (dieStep cfg) s = (none, s) := by
  simp [tierLoop, dieStep, h1, h2]

theorem tier_draw_off (cfg : Config) (s : ShoutSt)
    (h1 : declaredDraw cfg s Role.offense = true)
    (h2 : Duel.is_drawn s = true) :
    tierLoop (drawStep cfg) s =
      (some (ShoutMsg.drawnCorrect Role.offense
          ((s.offense.points + 1) == cfg.requiredPoints)),
        if (s.offense.points + 1) == cfg.requiredPoints then
          Game.end_
            (Duel.end_ { s with offense := bumpDraw s.offense }
              DuelState.DRAWN (some Role.offense) none)
            GameResult.FINISHED Role.offense
        else
          Duel.end_ { s with offense := bumpDraw s.offense } DuelState.DRAWN
            (some Role.offense) none) := by
  have hp :
      (Duel.end_ { s with offense := bumpDraw s.offense } DuelState.DRAWN
          (some Role.offense) none).offense.points
        = s.offense.points + 1 := by
    have h := end_points_self { s with offense := bumpDraw s.offense }
      DuelState.DRAWN Role.offense
    simpa using h
  by_cases hc : s.offense.points + 1 = cfg.requiredPoints
  · have hcb : ((s.offense.points + 1) == cfg.requiredPoints) = true := by
      simp [hc]
    simp [tierLoop, drawStep, h1, h2, hp, hc, hcb]
  · have hcb : ((s.offense.points + 1) == cfg.requiredPoints) = false := by
      simp [hc]
    simp [tierLoop, drawStep, h1, h2, hp, hc, hcb]

theorem tier_draw_def (cfg : Config) (s : ShoutSt)
    (h1 : declaredDraw cfg s Role.offense = false)
    (h2 : declaredDraw cfg s Role.defense = true)
    (h3 : Duel.is_drawn s = true) :
    tierLoop (drawStep cfg) s =
      (some (ShoutMsg.drawnCorrect Role.defense
          ((s.defense.points + 1) == cfg.requiredPoints)),
        if (s.defense.points + 1) == cfg.requiredPoints then
          Game.end_
            (Duel.end_ { s with defense := bumpDraw s.defense }
              DuelState.DRAWN (some Role.defense) none)
            GameResult.FINISHED Role.defense
        else
          Duel.end_ { s with defense := bumpDraw s.defense } DuelState.DRAWN
            (some Role.defense) none) := by
  have hp :
      (Duel.end_ { s with defense := bumpDraw s.defense } DuelState.DRAWN
          (some Role.defense) none).defense.points
        = s.defense.points + 1 := by
    have h := end_points_self { s with defense := bumpDraw s.defense }
      DuelState.DRAWN Role.defense
    simpa using h
  by_cases hc : s.defense.points + 1 = cfg.requiredPoints
  · have hcb : ((s.defense.points + 1) == cfg.requiredPoints) = true := by
      simp [hc]
    simp [tierLoop, drawStep, h1, h2, h3, hp, hc, hcb]
  · have hcb : ((s.defense.points + 1) == cfg.requiredPoints) = false := by
      simp [hc]
    simp [tierLoop, drawStep, h1, h2, h3, hp, hc, hcb]

theorem tier_draw_none (cfg : Config) (s : ShoutSt)
    (h1 : declaredDraw cfg s Role.offense = true → Duel.is_drawn s = false)
    (h2 : declaredDraw cfg s Role.defense = true → Duel.is_drawn s = false) :
    tierLoop (drawStep cfg) s = (none, postDraw cfg s) := by
  by_cases d1 : declaredDraw cfg s Role.offense <;>
    by_cases d2 : declaredDraw cfg s Role.defense
  · simp [tierLoop, drawStep, d1, d2, h1 d1, h2 d2, postDraw]
  · simp only [Bool.not_eq_true] at d2
    simp [tierLoop, drawStep, d1, d2, h1 d1, postDraw]
  · simp only [Bool.not_eq_true] at d1
    simp [tierLoop, drawStep, d1, d2, h2 d2, postDraw]
  · simp only [Bool.not_eq_true] at d1 d2
    simp [tierLoop, drawStep, d1, d2, postDraw]

/-- When no declaration qualifies, the fallthrough of `process_shout`
(reached at the state left by the incorrect-DONE and incorrect-DRAW
counter bumps) produces the message the spec's priority order dictates. -/
theorem fallthrough_msg (cfg : Config) (s : ShoutSt)
    (hr : s.round = 1 ∨ s.round = 2 ∨ s.round = 3)
    (q1 : qualifiesDone cfg s Role.offense = false)
    (q2 : qualifiesDone cfg s Role.defense = false)
    (q3 : declaredDie cfg s Role.offense = false)
    (q4 : declaredDie cfg s Role.defense = false)
    (q5 : qualifiesDraw cfg s Role.offense = false)
    (q6 : qualifiesDraw cfg s Role.defense = false) :
    (fallthroughStep cfg (postDraw cfg (postDone cfg s))).1
      = specShoutMsg cfg s := by
  have hfq : firstQualifying cfg s = none := by
    simp [firstQualifying, qualifiesDie, q1, q2, q3, q4, q5, q6]
  rcases hr with h1 | h2 | h3
  · simp [fallthroughStep, specShoutMsg, hfq, h1]
  · simp [fallthroughStep, specShoutMsg, hfq, h2]
  · rcases lt_trichotomy (s.duelSum Role.offense) (s.duelSum Role.defense)
      with hlt | heq | hgt
    · have hngt : ¬ s.duelSum Role.offense > s.duelSum Role.defense :=
        not_lt_of_gt hlt
      by_cases hp : s.defense.points + 1 = cfg.requiredPoints
      · have hpb : ((s.defense.points + 1) == cfg.requiredPoints) = true := by
          simp [hp]
        simp [fallthroughStep, specShoutMsg, finishOutcome, hfq, h3, hlt,
          hngt, hp, hpb]
      · have hpb : ((s.defense.points + 1) == cfg.requiredPoints) = false := by
          simp [hp]
        simp [fallthroughStep, specShoutMsg, finishOutcome, hfq, h3, hlt,
          hngt, hp, hpb]
    · have hngt : ¬ s.duelSum Role.offense > s.duelSum Role.defense := by
        omega
      have hnlt : ¬ s.duelSum Role.offense < s.duelSum Role.defense := by
        omega
      by_cases hp : s.defense.points + 1 = cfg.requiredPoints
      · have hpb : ((s.defense.points + 1) == cfg.requiredPoints) = true := by
          simp [hp]
        simp [fallthroughStep, specShoutMsg, drawnDefaultOutcome, hfq, h3,
          hngt, hnlt, hp, hpb]
      · have hpb : ((s.defense.points + 1) == cfg.requiredPoints) = false := by
          simp [hp]
        simp [fallthroughStep, specShoutMsg, drawnDefaultOutcome, hfq, h3,
          hngt, hnlt, hp, hpb]
    · by_cases hp : s.offense.points + 1 = cfg.requiredPoints
      · have hpb : ((s.offense.points + 1) == cfg.requiredPoints) = true := by
          simp [hp]
        simp [fallthroughStep, specShoutMsg, finishOutcome, hfq, h3, hgt,
          hp, hpb]
      · have hpb : ((s.offense.points + 1) == cfg.requiredPoints) = false := by
          simp [hp]
        simp [fallthroughStep, specShoutMsg, finishOutcome, hfq, h3, hgt,
          hp, hpb]

/-- Master correspondence: on the reduced actions, `process_shout` returns
exactly the message the spec's priority order dictates. -/
theorem resolveShout_msg (cfg : Config) (s : ShoutSt)
    (hr : s.round = 1 ∨ s.round = 2 ∨ s.round = 3) :
    (resolveShout cfg s).1 = specShoutMsg cfg s := by
  by_cases q1 : qualifiesDone cfg s Role.offense
  · have hq := q1
    simp only [qualifiesDone, Bool.and_eq_true, player_offense] at hq
    obtain ⟨hd1, hi1⟩ := hq
    unfold resolveShout
    rw [tier_done_off cfg s hd1 hi1]
    simp [specShoutMsg, firstQualifying, q1]
  · simp only [Bool.not_eq_true] at q1
    by_cases q2 : qualifiesDone cfg s Role.defense
    · have hq := q2
      simp only [qualifiesDone, Bool.and_eq_true, player_defense] at hq
      obtain ⟨hd2, hi2⟩ := hq
      unfold resolveShout
      rw [tier_done_def cfg s q1 hd2 hi2]
      simp [specShoutMsg, firstQualifying, q1, q2]
    · simp only [Bool.not_eq_true] at q2
      unfold resolveShout
      rw [tier_done_none cfg s q1 q2]
      show (dieDrawFallthrough cfg (postDone cfg s)).1 = specShoutMsg cfg s
      unfold dieDrawFallthrough
      by_cases q3 : declaredDie cfg s Role.offense
      · rw [tier_die_off cfg (postDone cfg s) (by simp [q3])]
        simp [specShoutMsg, firstQualifying, qualifiesDie, q1, q2, q3]
      · simp only [Bool.not_eq_true] at q3
        by_cases q4 : declaredDie cfg s Role.defense
        · rw [tier_die_def cfg (postDone cfg s) (by simp [q3]) (by simp [q4])]
          simp [specShoutMsg, firstQualifying, qualifiesDie, q1, q2, q3, q4]
        · simp only [Bool.not_eq_true] at q4
          rw [tier_die_none cfg (postDone cfg s) (by simp [q3]) (by simp [q4])]
          show (drawThenFallthrough cfg (postDone cfg s)).1
            = specShoutMsg cfg s
          unfold drawThenFallthrough
          by_cases q5 : declaredDraw cfg s Role.offense
          · by_cases q7 : Duel.is_drawn s
            · rw [tier_draw_off cfg (postDone cfg s) (by simp [q5])
                (by simp [q7])]
              simp [specShoutMsg, firstQualifying, qualifiesDie,
                qualifiesDraw, q1, q2, q3, q4, q5, q7]
            · simp only [Bool.not_eq_true] at q7
              rw [tier_draw_none cfg (postDone cfg s) (fun _ => by simp [q7])
                (fun _ => by simp [q7])]
              exact fallthrough_msg cfg s hr (by simp [q1]) (by simp [q2])
                q3 q4 (by simp [qualifiesDraw, q7]) (by simp [qualifiesDraw, q7])
          · simp only [Bool.not_eq_true] at q5
            by_cases q6 : declaredDraw cfg s Role.defense
            · by_cases q7 : Duel.is_drawn s
              · rw [tier_draw_def cfg (postDone cfg s) (by simp [q5])
                  (by simp [q6]) (by simp [q7])]
                simp [specShoutMsg, firstQualifying, qualifiesDie,
                  qualifiesDraw, q1, q2, q3, q4, q5, q6, q7]
              · simp only [Bool.not_eq_true] at q7
                rw [tier_draw_none cfg (postDone cfg s)
                  (fun h => by simp [q5] at h) (fun _ => by simp [q7])]
                exact fallthrough_msg cfg s hr (by simp [q1]) (by simp [q2])
                  q3 q4 (by simp [qualifiesDraw, q5])
                  (by simp [qualifiesDraw, q7])
            · simp only [Bool.not_eq_true] at q6
              rw [tier_draw_none cfg (postDone cfg s)
                (fun h => by simp [q5] at h) (fun h => by simp [q6] at h)]
              exact fallthrough_msg cfg s hr (by simp [q1]) (by simp [q2])
                q3 q4 (by simp [qualifiesDraw, q5]) (by simp [qualifiesDraw, q6])

@[simp] theorem withTwoActions_round (s : ShoutSt) (a b : Action) :
    (withTwoActions s a b).round = s.round := rfl

@[simp] theorem withTwoActions_def_die (s : ShoutSt) (a b : Action) :
    (withTwoActions s a b).defense.num_shout_die
      = s.defense.num_shout_die := rfl

@[simp] theorem withTwoActions_def_done (s : ShoutSt) (a b : Action) :
    (withTwoActions s a b).defense.num_shout_done
      = s.defense.num_shout_done := rfl

@[simp] theorem withTwoActions_def_draw (s : ShoutSt) (a b : Action) :
    (withTwoActions s a b).defense.num_shout_draw
      = s.defense.num_shout_draw := rfl

@[simp] theorem withTwoActions_def_points (s : ShoutSt) (a b : Action) :
    (withTwoActions s a b).defense.points = s.defense.points := rfl

theorem firstQualifying_done_off (cfg : Config) (s : ShoutSt)
    (h : firstQualifying cfg s = some (Qual.done Role.offense)) :
    qualifiesDone cfg s Role.offense = true := by
  unfold firstQualifying at h
  split_ifs at h with h1 h2 h3 h4 h5 h6 <;> simp_all

theorem firstQualifying_die_off (cfg : Config) (s : ShoutSt)
    (h : firstQualifying cfg s = some (Qual.die Role.offense)) :
    qualifiesDone cfg s Role.offense = false ∧
      qualifiesDone cfg s Role.defense = false ∧
      declaredDie cfg s Role.offense = true := by
  unfold firstQualifying at h
  split_ifs at h with h1 h2 h3 h4 h5 h6 <;> simp_all [qualifiesDie]

theorem firstQualifying_draw_off (cfg : Config) (s : ShoutSt)
    (h : firstQualifying cfg s = some (Qual.draw Role.offense)) :
    qualifiesDone cfg s Role.offense = false ∧
      qualifiesDone cfg s Role.defense = false ∧
      declaredDie cfg s Role.offense = false ∧
      declaredDie cfg s Role.defense = false ∧
      declaredDraw cfg s Role.offense = true ∧
      Duel.is_drawn s = true := by
  unfold firstQualifying at h
  split_ifs at h with h1 h2 h3 h4 h5 h6 <;>
    simp_all [qualifiesDie, qualifiesDraw]

/--
C1.  In every round (1-3) where both players declare recognized actions,
shout resolution follows the strict tier order DONE > DIE > DRAW >
fallthrough with the offense evaluated before the defense inside each
tier: the returned outcome equals the one determined by the first
qualifying declaration in that order (`specShoutMsg`, written from the
spec's priority wording, each tier evaluated once on the pre-round
state).  Moreover a simultaneous qualifying declaration by the other
player is not separately processed: when the offense's DONE aborts the
round the defense's done counter is untouched, when the offense's DIE
ends the duel the defense's die counter is untouched, and when the
offense's correct DRAW ends the duel the defense's draw counter and
points are untouched.
-/
theorem process_shout_priority (cfg : Config) (a b : Action) (s : ShoutSt)
    (hr : s.round = 1 ∨ s.round = 2 ∨ s.round = 3) :
    (Game.process_shout cfg (twoShouts a b) s).1
        = specShoutMsg cfg (withTwoActions s a b) ∧
      (firstQualifying cfg (withTwoActions s a b)
          = some (Qual.done Role.offense) →
        (Game.process_shout cfg (twoShouts a b) s).2.defense.num_shout_done
          = s.defense.num_shout_done) ∧
      (firstQualifying cfg (withTwoActions s a b)
          = some (Qual.die Role.offense) →
        (Game.process_shout cfg (twoShouts a b) s).2.defense.num_shout_die
          = s.defense.num_shout_die) ∧
      (firstQualifying cfg (withTwoActions s a b)
          = some (Qual.draw Role.offense) →
        (Game.process_shout cfg (twoShouts a b) s).2.defense.num_shout_draw
            = s.defense.num_shout_draw ∧
          (Game.process_shout cfg (twoShouts a b) s).2.defense.points
            = s.defense.points) := by
  have hr' : (withTwoActions s a b).round = 1 ∨
      (withTwoActions s a b).round = 2 ∨ (withTwoActions s a b).round = 3 := by
    simpa using hr
  rw [process_shout_twoShouts]
  refine ⟨resolveShout_msg cfg (withTwoActions s a b) hr', ?_, ?_, ?_⟩
  · intro hfq
    have q1 := firstQualifying_done_off cfg _ hfq
    have hq := q1
    simp only [qualifiesDone, Bool.and_eq_true, player_offense] at hq
    obtain ⟨hd1, hi1⟩ := hq
    unfold resolveShout
    rw [tier_done_off cfg _ hd1 hi1]
    simp [withTwoActions]
  · intro hfq
    obtain ⟨q1, q2, q3⟩ := firstQualifying_die_off cfg _ hfq
    unfold resolveShout
    rw [tier_done_none cfg _ q1 q2]
    show (dieDrawFallthrough cfg
        (postDone cfg (withTwoActions s a b))).2.defense.num_shout_die
      = s.defense.num_shout_die
    unfold dieDrawFallthrough
    rw [tier_die_off cfg (postDone cfg (withTwoActions s a b)) (by simp [q3])]
    simp
  · intro hfq
    obtain ⟨q1, q2, q3, q4, q5, q7⟩ := firstQualifying_draw_off cfg _ hfq
    unfold resolveShout
    rw [tier_done_none cfg _ q1 q2]
    show ((dieDrawFallthrough cfg
          (postDone cfg (withTwoActions s a b))).2.defense.num_shout_draw
          = s.defense.num_shout_draw ∧
        (dieDrawFallthrough cfg
          (postDone cfg (withTwoActions s a b))).2.defense.points
          = s.defense.points)
    unfold dieDrawFallthrough
    rw [tier_die_none cfg (postDone cfg (withTwoActions s a b)) (by simp [q3])
      (by simp [q4])]
    show ((drawThenFallthrough cfg
          (postDone cfg (withTwoActions s a b))).2.defense.num_shout_draw
          = s.defense.num_shout_draw ∧
        (drawThenFallthrough cfg
          (postDone cfg (withTwoActions s a b))).2.defense.points
          = s.defense.points)
    unfold drawThenFallthrough
    rw [tier_draw_off cfg (postDone cfg (withTwoActions s a b)) (by simp [q5])
      (by simp [q7])]
    constructor <;> (simp only []; split <;> simp)

theorem firstQualifying_none (cfg : Config) (s : ShoutSt)
    (h : firstQualifying cfg s = none) :
    qualifiesDone cfg s Role.offense = false ∧
      qualifiesDone cfg s Role.defense = false ∧
      declaredDie cfg s Role.offense = false ∧
      declaredDie cfg s Role.defense = false ∧
      qualifiesDraw cfg s Role.offense = false ∧
      qualifiesDraw cfg s Role.defense = false := by
  unfold firstQualifying at h
  split_ifs at h with h1 h2 h3 h4 h5 h6 <;> simp_all [qualifiesDie]

@[simp] theorem withTwoActions_off_deck (s : ShoutSt) (a b : Action) :
    (withTwoActions s a b).offense.deck_in_duel
      = s.offense.deck_in_duel := rfl

@[simp] theorem withTwoActions_def_deck (s : ShoutSt) (a b : Action) :
    (withTwoActions s a b).defense.deck_in_duel
      = s.defense.deck_in_duel := rfl

@[simp] theorem withTwoActions_off_points (s : ShoutSt) (a b : Action) :
    (withTwoActions s a b).offense.points = s.offense.points := rfl

@[simp] theorem withTwoActions_gameOver (s : ShoutSt) (a b : Action) :
    (withTwoActions s a b).gameOver = s.gameOver := rfl

theorem duelSum_eq_of_deck (s : ShoutSt) (r : Role) (d : Deck)
    (h : (s.player r).deck_in_duel = some d) : s.duelSum r = d.sumValues := by
  simp [ShoutSt.duelSum, h]

/-- When every tier is non-terminal, `process_shout` reaches the
fallthrough at the state left by the incorrect-DONE and incorrect-DRAW
counter bumps. -/
theorem resolveShout_fallthrough (cfg : Config) (s : ShoutSt)
    (q1 : qualifiesDone cfg s Role.offense = false)
    (q2 : qualifiesDone cfg s Role.defense = false)
    (q3 : declaredDie cfg s Role.offense = false)
    (q4 : declaredDie cfg s Role.defense = false)
    (h5 : declaredDraw cfg s Role.offense = true → Duel.is_drawn s = false)
    (h6 : declaredDraw cfg s Role.defense = true → Duel.is_drawn s = false) :
    resolveShout cfg s = fallthroughStep cfg (postDraw cfg (postDone cfg s)) := by
  unfold resolveShout
  rw [tier_done_none cfg s q1 q2]
  show dieDrawFallthrough cfg (postDone cfg s) = _
  unfold dieDrawFallthrough
  rw [tier_die_none cfg (postDone cfg s) (by simp [q3]) (by simp [q4])]
  show drawThenFallthrough cfg (postDone cfg s) = _
  unfold drawThenFallthrough
  rw [tier_draw_none cfg (postDone cfg s)
    (fun h => by
      simp only [declaredDraw_postDone] at h
      simp [h5 h])
    (fun h => by
      simp only [declaredDraw_postDone] at h
      simp [h6 h])]

/--
C2.  In a round-3 shout in which no terminal shout is recognized (no
qualifying declaration, `firstQualifying = none`), the duel is resolved
by comparing the summed card values of the two committed decks: a
strictly greater offense sum ends the duel FINISHED with the offense as
winner and one point to the offense; a strictly greater defense sum is
symmetric; equal sums end the duel DRAWN with the point awarded to the
defense.  In every branch the game ends (with the duel's winner as game
winner) exactly when the awarded point reaches the required total.
-/
theorem round3_sum_resolution (cfg : Config) (a b : Action) (s : ShoutSt)
    (h3 : s.round = 3) (hgo : s.gameOver = false)
    (dOff dDef : Deck)
    (hoff : s.offense.deck_in_duel = some dOff)
    (hdef : s.defense.deck_in_duel = some dDef)
    (hfq : firstQualifying cfg (withTwoActions s a b) = none) :
    (dOff.sumValues > dDef.sumValues →
      (Game.process_shout cfg (twoShouts a b) s).1
          = ShoutMsg.sumWin Role.offense
              ((s.offense.points + 1) == cfg.requiredPoints) ∧
        (Game.process_shout cfg (twoShouts a b) s).2.duelState
          = DuelState.FINISHED ∧
        (Game.process_shout cfg (twoShouts a b) s).2.duelOver = true ∧
        (Game.process_shout cfg (twoShouts a b) s).2.duelWinner
          = some Role.offense ∧
        (Game.process_shout cfg (twoShouts a b) s).2.offense.points
          = s.offense.points + 1 ∧
        (Game.process_shout cfg (twoShouts a b) s).2.defense.points
          = s.defense.points ∧
        (Game.process_shout cfg (twoShouts a b) s).2.gameOver
          = ((s.offense.points + 1) == cfg.requiredPoints) ∧
        (s.offense.points + 1 = cfg.requiredPoints →
          (Game.process_shout cfg (twoShouts a b) s).2.gameWinner
            = some Role.offense)) ∧
    (dOff.sumValues < dDef.sumValues →
      (Game.process_shout cfg (twoShouts a b) s).1
          = ShoutMsg.sumWin Role.defense
              ((s.defense.points + 1) == cfg.requiredPoints) ∧
        (Game.process_shout cfg (twoShouts a b) s).2.duelState
          = DuelState.FINISHED ∧
        (Game.process_shout cfg (twoShouts a b) s).2.duelOver = true ∧
        (Game.process_shout cfg (twoShouts a b) s).2.duelWinner
          = some Role.defense ∧
        (Game.process_shout cfg (twoShouts a b) s).2.defense.points
          = s.defense.points + 1 ∧
        (Game.process_shout cfg (twoShouts a b) s).2.offense.points
          = s.offense.points ∧
        (Game.process_shout cfg (twoShouts a b) s).2.gameOver
          = ((s.defense.points + 1) == cfg.requiredPoints) ∧
        (s.defense.points + 1 = cfg.requiredPoints →
          (Game.process_shout cfg (twoShouts a b) s).2.gameWinner
            = some Role.defense)) ∧
    (dOff.sumValues = dDef.sumValues →
      (Game.process_shout cfg (twoShouts a b) s).1
          = ShoutMsg.sumDrawnDefault
              ((s.defense.points + 1) == cfg.requiredPoints) ∧
        (Game.process_shout cfg (twoShouts a b) s).2.duelState
          = DuelState.DRAWN ∧
        (Game.process_shout cfg (twoShouts a b) s).2.duelOver = true ∧
        (Game.process_shout cfg (twoShouts a b) s).2.duelWinner
          = some Role.defense ∧
        (Game.process_shout cfg (twoShouts a b) s).2.defense.points
          = s.defense.points + 1 ∧
        (Game.process_shout cfg (twoShouts a b) s).2.offense.points
          = s.offense.points ∧
        (Game.process_shout cfg (twoShouts a b) s).2.gameOver
          = ((s.defense.points + 1) == cfg.requiredPoints) ∧
        (s.defense.points + 1 = cfg.requiredPoints →
          (Game.process_shout cfg (twoShouts a b) s).2.gameWinner
            = some Role.defense)) := by
  obtain ⟨q1, q2, q3, q4, q5, q6⟩ := firstQualifying_none cfg _ hfq
  have hd1 : declaredDraw cfg (withTwoActions s a b) Role.offense = true →
      Duel.is_drawn (withTwoActions s a b) = false := by
    intro h
    have hq := q5
    simp [qualifiesDraw, h] at hq
    exact hq
  have hd2 : declaredDraw cfg (withTwoActions s a b) Role.defense = true →
      Duel.is_drawn (withTwoActions s a b) = false := by
    intro h
    have hq := q6
    simp [qualifiesDraw, h] at hq
    exact hq
  have hsumo : (withTwoActions s a b).duelSum Role.offense
      = dOff.sumValues := by
    rw [duelSum_eq_of_deck _ _ dOff (by simpa using hoff)]
  have hsumd : (withTwoActions s a b).duelSum Role.defense
      = dDef.sumValues := by
    rw [duelSum_eq_of_deck _ _ dDef (by simpa using hdef)]
  rw [process_shout_twoShouts,
    resolveShout_fallthrough cfg _ q1 q2 q3 q4 hd1 hd2]
  refine ⟨?_, ?_, ?_⟩
  · intro hgt
    have hgt' : ¬ dOff.sumValues < dDef.sumValues := by omega
    by_cases hp : s.offense.points + 1 = cfg.requiredPoints
    · have hpb : ((s.offense.points + 1) == cfg.requiredPoints) = true := by
        simp [hp]
      simp [fallthroughStep, finishOutcome, h3, hsumo, hsumd, hgt, hgt',
        hp, hpb, hgo]
    · have hpb : ((s.offense.points + 1) == cfg.requiredPoints) = false := by
        simp [hp]
      simp [fallthroughStep, finishOutcome, h3, hsumo, hsumd, hgt, hgt',
        hp, hpb, hgo]
  · intro hlt
    have hlt' : ¬ dOff.sumValues > dDef.sumValues := by omega
    by_cases hp : s.defense.points + 1 = cfg.requiredPoints
    · have hpb : ((s.defense.points + 1) == cfg.requiredPoints) = true := by
        simp [hp]
      simp [fallthroughStep, finishOutcome, h3, hsumo, hsumd, hlt, hlt',
        hp, hpb, hgo]
    · have hpb : ((s.defense.points + 1) == cfg.requiredPoints) = false := by
        simp [hp]
      simp [fallthroughStep, finishOutcome, h3, hsumo, hsumd, hlt, hlt',
        hp, hpb, hgo]
  · intro heq
    have h1' : ¬ dOff.sumValues > dDef.sumValues := by omega
    have h2' : ¬ dOff.sumValues < dDef.sumValues := by omega
    by_cases hp : s.defense.points + 1 = cfg.requiredPoints
    · have hpb : ((s.defense.points + 1) == cfg.requiredPoints) = true := by
        simp [hp]
      simp [fallthroughStep, drawnDefaultOutcome, h3, hsumo, hsumd, h1',
        h2', hp, hpb, hgo]
    · have hpb : ((s.defense.points + 1) == cfg.requiredPoints) = false := by
        simp [hp]
      simp [fallthroughStep, drawnDefaultOutcome, h3, hsumo, hsumd, h1',
        h2', hp, hpb, hgo]

@[simp] theorem withTwoActions_off_is_done (s : ShoutSt) (a b : Action) :
    (withTwoActions s a b).offense.is_done = s.offense.is_done := rfl

@[simp] theorem withTwoActions_def_is_done (s : ShoutSt) (a b : Action) :
    (withTwoActions s a b).defense.is_done = s.defense.is_done := rfl

@[simp] theorem withTwoActions_off_die (s : ShoutSt) (a b : Action) :
    (withTwoActions s a b).offense.num_shout_die
      = s.offense.num_shout_die := rfl

@[simp] theorem withTwoActions_off_done (s : ShoutSt) (a b : Action) :
    (withTwoActions s a b).offense.num_shout_done
      = s.offense.num_shout_done := rfl

@[simp] theorem withTwoActions_off_recent (s : ShoutSt) (a b : Action) :
    (withTwoActions s a b).offense.recentAction = some a := rfl

@[simp] theorem withTwoActions_def_recent (s : ShoutSt) (a b : Action) :
    (withTwoActions s a b).defense.recentAction = some b := rfl

@[simp] theorem some_beq_some {α : Type _} [BEq α] (x y : α) :
    ((some x == some y) : Bool) = (x == y) := rfl

@[simp] theorem withTwoActions_off_idx (s : ShoutSt) (a b : Action) :
    (withTwoActions s a b).offense.deckInDuelIdx
      = s.offense.deckInDuelIdx := rfl

@[simp] theorem withTwoActions_def_idx (s : ShoutSt) (a b : Action) :
    (withTwoActions s a b).defense.deckInDuelIdx
      = s.defense.deckInDuelIdx := rfl

@[simp] theorem withTwoActions_off_decks (s : ShoutSt) (a b : Action) :
    (withTwoActions s a b).offense.decks = s.offense.decks := rfl

@[simp] theorem withTwoActions_def_decks (s : ShoutSt) (a b : Action) :
    (withTwoActions s a b).defense.decks = s.defense.decks := rfl

/-- The fallthrough never touches the done counters. -/
theorem fallthroughStep_done (cfg : Config) (t : ShoutSt) (r : Role) :
    ((fallthroughStep cfg t).2.player r).num_shout_done
      = (t.player r).num_shout_done := by
  unfold fallthroughStep finishOutcome drawnDefaultOutcome
  by_cases h1 : t.round = 1 ∨ t.round = 2
  · simp [h1]
  · by_cases h2 : t.round = 3
    · cases r <;> (simp [h1, h2]; split_ifs <;> simp)
    · simp [h1, h2]

/-- The DIE and DRAW tiers and the fallthrough never touch the done
counters. -/
theorem dieDrawFallthrough_done (cfg : Config) (t : ShoutSt) (r : Role) :
    ((dieDrawFallthrough cfg t).2.player r).num_shout_done
      = (t.player r).num_shout_done := by
  unfold dieDrawFallthrough
  by_cases q3 : declaredDie cfg t Role.offense
  · rw [tier_die_off cfg t q3]
    cases r <;> simp
  · simp only [Bool.not_eq_true] at q3
    by_cases q4 : declaredDie cfg t Role.defense
    · rw [tier_die_def cfg t q3 q4]
      cases r <;> simp
    · simp only [Bool.not_eq_true] at q4
      rw [tier_die_none cfg t q3 q4]
      show ((drawThenFallthrough cfg t).2.player r).num_shout_done = _
      unfold drawThenFallthrough
      by_cases q5 : declaredDraw cfg t Role.offense
      · by_cases q7 : Duel.is_drawn t
        · rw [tier_draw_off cfg t q5 q7]
          cases r <;> (simp only []; split <;> simp)
        · simp only [Bool.not_eq_true] at q7
          rw [tier_draw_none cfg t (fun _ => q7) (fun _ => q7)]
          show ((fallthroughStep cfg (postDraw cfg t)).2.player r).num_shout_done
            = _
          rw [fallthroughStep_done]
          cases r <;> simp
      · simp only [Bool.not_eq_true] at q5
        by_cases q6 : declaredDraw cfg t Role.defense
        · by_cases q7 : Duel.is_drawn t
          · rw [tier_draw_def cfg t q5 q6 q7]
            cases r <;> (simp only []; split <;> simp)
          · simp only [Bool.not_eq_true] at q7
            rw [tier_draw_none cfg t (fun _ => q7) (fun _ => q7)]
            show ((fallthroughStep cfg
                (postDraw cfg t)).2.player r).num_shout_done = _
            rw [fallthroughStep_done]
            cases r <;> simp
        · simp only [Bool.not_eq_true] at q6
          rw [tier_draw_none cfg t (fun h => by simp [h] at q5)
            (fun h => by simp [h] at q6)]
          show ((fallthroughStep cfg
              (postDraw cfg t)).2.player r).num_shout_done = _
          rw [fallthroughStep_done]
          cases r <;> simp

/--
C3.  DONE-tier semantics, offense before defense: a player whose resolved
action for the round is DONE has their done counter incremented (the
defense's only when the offense's correct DONE has not already aborted
the round, per the tier discipline); if at that point the full rank set
1..13 is disclosed among that player's own decks (`is_done`, i.e.
`disclosed_values` has all 13 ranks), the duel ends
ABORTED_BY_CORRECT_DONE and the game immediately ends with that player
as winner with no point awarded; an incorrect DONE increments the
counter but ends neither the duel nor the game — processing continues
with the lower tiers (`dieDrawFallthrough`) from the bumped state.
-/
theorem done_tier_semantics (cfg : Config) (a b : Action) (s : ShoutSt)
    (hr : s.round = 1 ∨ s.round = 2 ∨ s.round = 3) :
    (a = Action.DONE →
      (Game.process_shout cfg (twoShouts a b) s).2.offense.num_shout_done
        = s.offense.num_shout_done + 1) ∧
    (a = Action.DONE → s.offense.is_done = true →
      (Game.process_shout cfg (twoShouts a b) s).1
          = ShoutMsg.doneAborted Role.offense ∧
        (Game.process_shout cfg (twoShouts a b) s).2.duelState
          = DuelState.ABORTED_BY_CORRECT_DONE ∧
        (Game.process_shout cfg (twoShouts a b) s).2.duelOver = true ∧
        (Game.process_shout cfg (twoShouts a b) s).2.gameOver = true ∧
        (Game.process_shout cfg (twoShouts a b) s).2.gameResult
          = some GameResult.DONE ∧
        (Game.process_shout cfg (twoShouts a b) s).2.gameWinner
          = some Role.offense ∧
        (Game.process_shout cfg (twoShouts a b) s).2.offense.points
          = s.offense.points ∧
        (Game.process_shout cfg (twoShouts a b) s).2.defense.points
          = s.defense.points) ∧
    (b = Action.DONE → ¬(a = Action.DONE ∧ s.offense.is_done = true) →
      (Game.process_shout cfg (twoShouts a b) s).2.defense.num_shout_done
        = s.defense.num_shout_done + 1) ∧
    (b = Action.DONE → s.defense.is_done = true →
        ¬(a = Action.DONE ∧ s.offense.is_done = true) →
      (Game.process_shout cfg (twoShouts a b) s).1
          = ShoutMsg.doneAborted Role.defense ∧
        (Game.process_shout cfg (twoShouts a b) s).2.duelState
          = DuelState.ABORTED_BY_CORRECT_DONE ∧
        (Game.process_shout cfg (twoShouts a b) s).2.gameOver = true ∧
        (Game.process_shout cfg (twoShouts a b) s).2.gameWinner
          = some Role.defense ∧
        (Game.process_shout cfg (twoShouts a b) s).2.offense.points
          = s.offense.points ∧
        (Game.process_shout cfg (twoShouts a b) s).2.defense.points
          = s.defense.points) ∧
    ((a = Action.DONE → s.offense.is_done = false) →
      (b = Action.DONE → s.defense.is_done = false) →
      Game.process_shout cfg (twoShouts a b) s
        = dieDrawFallthrough cfg (postDone cfg (withTwoActions s a b))) := by
  have hround : (decide (s.round = 1 ∨ s.round = 2 ∨ s.round = 3)) = true :=
    decide_eq_true hr
  have hdo : declaredDone cfg (withTwoActions s a b) Role.offense
      = (a == Action.DONE) := by
    rw [declaredDone_eq]
    simp [hround]
  have hdd : declaredDone cfg (withTwoActions s a b) Role.defense
      = (b == Action.DONE) := by
    rw [declaredDone_eq]
    simp [hround]
  refine ⟨?_, ?_, ?_, ?_, ?_⟩
  · intro ha
    subst ha
    simp only [beq_self_eq_true] at hdo
    rw [process_shout_twoShouts]
    by_cases hi : s.offense.is_done
    · unfold resolveShout
      rw [tier_done_off cfg _ hdo (by simpa using hi)]
      simp
    · simp only [Bool.not_eq_true] at hi
      have q1 : qualifiesDone cfg (withTwoActions s Action.DONE b)
          Role.offense = false := by
        simp [qualifiesDone, hdo, hi]
      by_cases hq2 : qualifiesDone cfg (withTwoActions s Action.DONE b)
          Role.defense
      · have hq := hq2
        simp only [qualifiesDone, Bool.and_eq_true, player_defense] at hq
        obtain ⟨hd2, hi2⟩ := hq
        unfold resolveShout
        rw [tier_done_def cfg _ q1 hd2 hi2]
        simp [postDoneOff, hdo]
      · simp only [Bool.not_eq_true] at hq2
        unfold resolveShout
        rw [tier_done_none cfg _ q1 hq2]
        show (dieDrawFallthrough cfg
            (postDone cfg (withTwoActions s Action.DONE b))).2.offense.num_shout_done
          = s.offense.num_shout_done + 1
        have hp := dieDrawFallthrough_done cfg
          (postDone cfg (withTwoActions s Action.DONE b)) Role.offense
        simp only [player_offense] at hp
        rw [hp, postDone_offense_done]
        simp [hdo]
  · intro ha hi
    subst ha
    simp only [beq_self_eq_true] at hdo
    rw [process_shout_twoShouts]
    unfold resolveShout
    rw [tier_done_off cfg _ hdo (by simpa using hi)]
    simp
  · intro hb hnot
    subst hb
    simp only [beq_self_eq_true] at hdd
    have q1 : qualifiesDone cfg (withTwoActions s a Action.DONE)
        Role.offense = false := by
      by_cases ha : a = Action.DONE
      · have hi : s.offense.is_done = false := by
          cases hi : s.offense.is_done
          · rfl
          · exact absurd ⟨ha, hi⟩ hnot
        simp [qualifiesDone, hdo, ha, hi]
      · simp [qualifiesDone, hdo, ha]
    rw [process_shout_twoShouts]
    by_cases hi2 : s.defense.is_done
    · unfold resolveShout
      rw [tier_done_def cfg _ q1 hdd (by simpa using hi2)]
      simp
    · simp only [Bool.not_eq_true] at hi2
      have q2 : qualifiesDone cfg (withTwoActions s a Action.DONE)
          Role.defense = false := by
        simp [qualifiesDone, hdd, hi2]
      unfold resolveShout
      rw [tier_done_none cfg _ q1 q2]
      show (dieDrawFallthrough cfg
          (postDone cfg (withTwoActions s a Action.DONE))).2.defense.num_shout_done
        = s.defense.num_shout_done + 1
      have hp := dieDrawFallthrough_done cfg
        (postDone cfg (withTwoActions s a Action.DONE)) Role.defense
      simp only [player_defense] at hp
      rw [hp, postDone_defense_done]
      simp [hdd]
  · intro hb hi2 hnot
    subst hb
    simp only [beq_self_eq_true] at hdd
    have q1 : qualifiesDone cfg (withTwoActions s a Action.DONE)
        Role.offense = false := by
      by_cases ha : a = Action.DONE
      · have hi : s.offense.is_done = false := by
          cases hi : s.offense.is_done
          · rfl
          · exact absurd ⟨ha, hi⟩ hnot
        simp [qualifiesDone, hdo, ha, hi]
      · simp [qualifiesDone, hdo, ha]
    rw [process_shout_twoShouts]
    unfold resolveShout
    rw [tier_done_def cfg _ q1 hdd (by simpa using hi2)]
    simp [postDoneOff, apply_ite PlayerSt.points]
  · intro h5 h6
    have q1 : qualifiesDone cfg (withTwoActions s a b) Role.offense
        = false := by
      by_cases ha : a = Action.DONE
      · simp [qualifiesDone, hdo, ha, h5 ha]
      · simp [qualifiesDone, hdo, ha]
    have q2 : qualifiesDone cfg (withTwoActions s a b) Role.defense
        = false := by
      by_cases hb : b = Action.DONE
      · simp [qualifiesDone, hdd, hb, h6 hb]
      · simp [qualifiesDone, hdd, hb]
    rw [process_shout_twoShouts]
    unfold resolveShout
    rw [tier_done_none cfg _ q1 q2]

theorem listModify_get_self (l : List α) (i : Nat) (f : α → α) (x : α)
    (h : l.get? i = some x) : (listModify l i f).get? i = some (f x) := by
  have hlen : i < l.length := by
    rcases List.get?_eq_some.mp h with ⟨hi, _⟩
    exact hi
  simp only [listModify, h]
  rw [List.get?_eq_get (by simpa using hlen), List.get_set_eq]

theorem finishAndOpen_state (d : Deck) :
    (Deck.finishAndOpen d).state = DeckState.FINISHED := rfl

theorem finishAndOpen_open (d : Deck) :
    ∀ c ∈ (Deck.finishAndOpen d).cards, c.open_ = true := by
  intro c hc
  simp only [Deck.finishAndOpen, List.mem_map] at hc
  obtain ⟨x, _, hx⟩ := hc
  rw [← hx]

/-- When neither player's DONE qualifies and the offense's DIE is valid
and declared, `process_shout` ends the duel DIED from the offense's die
step. -/
theorem resolveShout_die_off (cfg : Config) (s : ShoutSt)
    (q1 : qualifiesDone cfg s Role.offense = false)
    (q2 : qualifiesDone cfg s Role.defense = false)
    (q3 : declaredDie cfg s Role.offense = true) :
    resolveShout cfg s =
      (ShoutMsg.died Role.offense,
        Duel.end_
          { (postDone cfg s) with
            offense := bumpDie (postDone cfg s).offense }
          DuelState.DIED none none) := by
  unfold resolveShout
  rw [tier_done_none cfg s q1 q2]
  show dieDrawFallthrough cfg (postDone cfg s) = _
  unfold dieDrawFallthrough
  rw [tier_die_off cfg (postDone cfg s) (by simp [q3])]

/--
C4 (amended).  If the offense declares DIE at a dare-round shout (round
counter 1 or 2 — the duel's first shout carries counter 2, cf. the round
progression) while their die count is under the per-game cap, and the
defense does not simultaneously declare a correct DONE (which the
higher-priority DONE tier would process first), then: the duel ends in
state DIED with no winner, zero points are awarded to either player, the
game does not end, the offense's die counter is incremented by exactly 1
while the defense's is untouched, both committed decks are marked
FINISHED with every card revealed, and both players' duel-deck
commitments are cleared.
-/
theorem offense_die_effects (cfg : Config) (b : Action) (s : ShoutSt)
    (i j : Nat) (dO dD : Deck)
    (hr : s.round = 1 ∨ s.round = 2)
    (hcap : s.offense.num_shout_die < cfg.maxDie)
    (hnd : ¬(b = Action.DONE ∧ s.defense.is_done = true))
    (hio : s.offense.deckInDuelIdx = some i)
    (hgo : s.offense.decks.get? i = some dO)
    (hid : s.defense.deckInDuelIdx = some j)
    (hgd : s.defense.decks.get? j = some dD) :
    (Game.process_shout cfg (twoShouts Action.DIE b) s).1
        = ShoutMsg.died Role.offense ∧
      (Game.process_shout cfg (twoShouts Action.DIE b) s).2.duelState
        = DuelState.DIED ∧
      (Game.process_shout cfg (twoShouts Action.DIE b) s).2.duelOver = true ∧
      (Game.process_shout cfg (twoShouts Action.DIE b) s).2.duelWinner
        = none ∧
      (Game.process_shout cfg (twoShouts Action.DIE b) s).2.offense.points
        = s.offense.points ∧
      (Game.process_shout cfg (twoShouts Action.DIE b) s).2.defense.points
        = s.defense.points ∧
      (Game.process_shout cfg (twoShouts Action.DIE b) s).2.gameOver
        = s.gameOver ∧
      (Game.process_shout cfg (twoShouts Action.DIE b) s).2.offense.num_shout_die
        = s.offense.num_shout_die + 1 ∧
      (Game.process_shout cfg (twoShouts Action.DIE b) s).2.defense.num_shout_die
        = s.defense.num_shout_die ∧
      (Game.process_shout cfg (twoShouts Action.DIE b) s).2.offense.deckInDuelIdx
        = none ∧
      (Game.process_shout cfg (twoShouts Action.DIE b) s).2.defense.deckInDuelIdx
        = none ∧
      (Game.process_shout cfg (twoShouts Action.DIE b) s).2.offense.decks.get? i
        = some (Deck.finishAndOpen dO) ∧
      (Game.process_shout cfg (twoShouts Action.DIE b) s).2.defense.decks.get? j
        = some (Deck.finishAndOpen dD) ∧
      (Deck.finishAndOpen dO).state = DeckState.FINISHED ∧
      (∀ c ∈ (Deck.finishAndOpen dO).cards, c.open_ = true) ∧
      (Deck.finishAndOpen dD).state = DeckState.FINISHED ∧
      (∀ c ∈ (Deck.finishAndOpen dD).cards, c.open_ = true) := by
  have hround : (decide (s.round = 1 ∨ s.round = 2)) = true :=
    decide_eq_true hr
  have q1 : qualifiesDone cfg (withTwoActions s Action.DIE b) Role.offense
      = false := by
    rw [qualifiesDone, declaredDone_eq]
    simp
  have q2 : qualifiesDone cfg (withTwoActions s Action.DIE b) Role.defense
      = false := by
    rw [qualifiesDone, declaredDone_eq]
    by_cases hb : b = Action.DONE
    · have hi2 : s.defense.is_done = false := by
        cases hi2 : s.defense.is_done
        · rfl
        · exact absurd ⟨hb, hi2⟩ hnd
      simp [hb, hi2]
    · simp [hb]
  have q3 : declaredDie cfg (withTwoActions s Action.DIE b) Role.offense
      = true := by
    rw [declaredDie_eq]
    simp [hround, hcap]
  rw [process_shout_twoShouts, resolveShout_die_off cfg _ q1 q2 q3]
  have hdecko :
      (Duel.end_
          { (postDone cfg (withTwoActions s Action.DIE b)) with
            offense := bumpDie
              (postDone cfg (withTwoActions s Action.DIE b)).offense }
          DuelState.DIED none none).offense.decks.get? i
        = some (Deck.finishAndOpen dO) := by
    rw [end_offense_decks_none]
    rw [closeDuelDeck_decks_some _ i (by simp [hio])]
    exact listModify_get_self _ i _ dO (by simpa [withTwoActions] using hgo)
  have hdeckd :
      (Duel.end_
          { (postDone cfg (withTwoActions s Action.DIE b)) with
            offense := bumpDie
              (postDone cfg (withTwoActions s Action.DIE b)).offense }
          DuelState.DIED none none).defense.decks.get? j
        = some (Deck.finishAndOpen dD) := by
    rw [end_defense_decks_none]
    rw [closeDuelDeck_decks_some _ j (by simp [hid])]
    exact listModify_get_self _ j _ dD (by simpa [withTwoActions] using hgd)
  refine ⟨by simp, by simp, by simp, by simp, by simp, by simp, by simp,
    by simp, by simp, by simp, by simp, hdecko, hdeckd,
    finishAndOpen_state dO, finishAndOpen_open dO,
    finishAndOpen_state dD, finishAndOpen_open dD⟩

/-! Concrete states used by the witness and counterexample theorems. -/

/-- A face-up card of value `v`. -/
def oCard (v : Int) : Card :=
  { suit := some 0, colored := true, rank := some 1, value := v,
    open_ := true }

/-- A face-down card of value `v`. -/
def hCard (v : Int) : Card :=
  { suit := some 1, colored := true, rank := some 2, value := v,
    open_ := false }

/-- A committed duel deck after the second card was revealed. -/
def duelDeck (v1 v2 v3 : Int) : Deck :=
  { cards := [oCard v1, oCard v2, hCard v3], state := DeckState.IN_DUEL,
    index := 0 }

/-- A finished, fully revealed deck. -/
def fDeck (v1 v2 v3 : Int) : Deck :=
  { cards := [oCard v1, oCard v2, oCard v3], state := DeckState.FINISHED,
    index := 0 }

def basePlayer (d : Deck) : PlayerSt :=
  { decks := [d], deckInDuelIdx := some 0, points := 0, num_shout_die := 0,
    num_shout_done := 0, num_shout_draw := 0, recentAction := none }

def baseState (r : Nat) (dOff dDef : Deck) : ShoutSt :=
  { round := r, offense := basePlayer dOff, defense := basePlayer dDef,
    duelState := DuelState.ONGOING, duelOver := false, duelWinner := none,
    duelLoser := none, gameOver := false, gameResult := none,
    gameWinner := none }

/-- A defense player whose non-undisclosed decks disclose every rank value
1..13 (so `is_done` holds), with a committed duel deck. -/
def donePlayer : PlayerSt :=
  { decks := [fDeck 1 2 3, fDeck 4 5 6, fDeck 7 8 9, fDeck 10 11 12,
      fDeck 13 1 2, duelDeck 4 6 3],
    deckInDuelIdx := some 5, points := 0, num_shout_die := 0,
    num_shout_done := 0, num_shout_draw := 0, recentAction := none }

def sampleCfg : Config := { maxDie := 3, maxDraw := 3, requiredPoints := 5 }

def w1State : ShoutSt := baseState 2 (duelDeck 5 7 2) (duelDeck 4 6 3)

def w2State : ShoutSt := baseState 3 (duelDeck 5 7 2) (duelDeck 4 6 3)

def c4State : ShoutSt :=
  { round := 2, offense := basePlayer (duelDeck 5 7 2),
    defense := donePlayer, duelState := DuelState.ONGOING,
    duelOver := false, duelWinner := none, duelLoser := none,
    gameOver := false, gameResult := none, gameWinner := none }

/-- C1 witness at a concrete round-2 state with both players daring. -/
theorem process_shout_priority_witness :
    (Game.process_shout sampleCfg (twoShouts Action.DARE Action.DARE)
          w1State).1
        = specShoutMsg sampleCfg
            (withTwoActions w1State Action.DARE Action.DARE) ∧
      (firstQualifying sampleCfg
            (withTwoActions w1State Action.DARE Action.DARE)
          = some (Qual.done Role.offense) →
        (Game.process_shout sampleCfg (twoShouts Action.DARE Action.DARE)
              w1State).2.defense.num_shout_done
          = w1State.defense.num_shout_done) ∧
      (firstQualifying sampleCfg
            (withTwoActions w1State Action.DARE Action.DARE)
          = some (Qual.die Role.offense) →
        (Game.process_shout sampleCfg (twoShouts Action.DARE Action.DARE)
              w1State).2.defense.num_shout_die
          = w1State.defense.num_shout_die) ∧
      (firstQualifying sampleCfg
            (withTwoActions w1State Action.DARE Action.DARE)
          = some (Qual.draw Role.offense) →
        (Game.process_shout sampleCfg (twoShouts Action.DARE Action.DARE)
              w1State).2.defense.num_shout_draw
            = w1State.defense.num_shout_draw ∧
          (Game.process_shout sampleCfg (twoShouts Action.DARE Action.DARE)
              w1State).2.defense.points
            = w1State.defense.points) :=
  process_shout_priority sampleCfg Action.DARE Action.DARE w1State
    (Or.inr (Or.inl rfl))

/-- C2 witness at a concrete round-3 state with both players idle. -/
theorem round3_sum_resolution_witness :
    ((duelDeck 5 7 2).sumValues > (duelDeck 4 6 3).sumValues →
      (Game.process_shout sampleCfg (twoShouts Action.IDLE Action.IDLE)
            w2State).1
          = ShoutMsg.sumWin Role.offense
              ((w2State.offense.points + 1) == sampleCfg.requiredPoints) ∧
        (Game.process_shout sampleCfg (twoShouts Action.IDLE Action.IDLE)
            w2State).2.duelState = DuelState.FINISHED ∧
        (Game.process_shout sampleCfg (twoShouts Action.IDLE Action.IDLE)
            w2State).2.duelOver = true ∧
        (Game.process_shout sampleCfg (twoShouts Action.IDLE Action.IDLE)
            w2State).2.duelWinner = some Role.offense ∧
        (Game.process_shout sampleCfg (twoShouts Action.IDLE Action.IDLE)
            w2State).2.offense.points = w2State.offense.points + 1 ∧
        (Game.process_shout sampleCfg (twoShouts Action.IDLE Action.IDLE)
            w2State).2.defense.points = w2State.defense.points ∧
        (Game.process_shout sampleCfg (twoShouts Action.IDLE Action.IDLE)
            w2State).2.gameOver
          = ((w2State.offense.points + 1) == sampleCfg.requiredPoints) ∧
        (w2State.offense.points + 1 = sampleCfg.requiredPoints →
          (Game.process_shout sampleCfg (twoShouts Action.IDLE Action.IDLE)
              w2State).2.gameWinner = some Role.offense)) ∧
    ((duelDeck 5 7 2).sumValues < (duelDeck 4 6 3).sumValues →
      (Game.process_shout sampleCfg (twoShouts Action.IDLE Action.IDLE)
            w2State).1
          = ShoutMsg.sumWin Role.defense
              ((w2State.defense.points + 1) == sampleCfg.requiredPoints) ∧
        (Game.process_shout sampleCfg (twoShouts Action.IDLE Action.IDLE)
            w2State).2.duelState = DuelState.FINISHED ∧
        (Game.process_shout sampleCfg (twoShouts Action.IDLE Action.IDLE)
            w2State).2.duelOver = true ∧
        (Game.process_shout sampleCfg (twoShouts Action.IDLE Action.IDLE)
            w2State).2.duelWinner = some Role.defense ∧
        (Game.process_shout sampleCfg (twoShouts Action.IDLE Action.IDLE)
            w2State).2.defense.points = w2State.defense.points + 1 ∧
        (Game.process_shout sampleCfg (twoShouts Action.IDLE Action.IDLE)
            w2State).2.offense.points = w2State.offense.points ∧
        (Game.process_shout sampleCfg (twoShouts Action.IDLE Action.IDLE)
            w2State).2.gameOver
          = ((w2State.defense.points + 1) == sampleCfg.requiredPoints) ∧
        (w2State.defense.points + 1 = sampleCfg.requiredPoints →
          (Game.process_shout sampleCfg (twoShouts Action.IDLE Action.IDLE)
              w2State).2.gameWinner = some Role.defense)) ∧
    ((duelDeck 5 7 2).sumValues = (duelDeck 4 6 3).sumValues →
      (Game.process_shout sampleCfg (twoShouts Action.IDLE Action.IDLE)
            w2State).1
          = ShoutMsg.sumDrawnDefault
              ((w2State.defense.points + 1) == sampleCfg.requiredPoints) ∧
        (Game.process_shout sampleCfg (twoShouts Action.IDLE Action.IDLE)
            w2State).2.duelState = DuelState.DRAWN ∧
        (Game.process_shout sampleCfg (twoShouts Action.IDLE Action.IDLE)
            w2State).2.duelOver = true ∧
        (Game.process_shout sampleCfg (twoShouts Action.IDLE Action.IDLE)
            w2State).2.duelWinner = some Role.defense ∧
        (Game.process_shout sampleCfg (twoShouts Action.IDLE Action.IDLE)
            w2State).2.defense.points = w2State.defense.points + 1 ∧
        (Game.process_shout sampleCfg (twoShouts Action.IDLE Action.IDLE)
            w2State).2.offense.points = w2State.offense.points ∧
        (Game.process_shout sampleCfg (twoShouts Action.IDLE Action.IDLE)
            w2State).2.gameOver
          = ((w2State.defense.points + 1) == sampleCfg.requiredPoints) ∧
        (w2State.defense.points + 1 = sampleCfg.requiredPoints →
          (Game.process_shout sampleCfg (twoShouts Action.IDLE Action.IDLE)
              w2State).2.gameWinner = some Role.defense)) :=
  round3_sum_resolution sampleCfg Action.IDLE Action.IDLE w2State rfl rfl
    (duelDeck 5 7 2) (duelDeck 4 6 3) rfl rfl (by decide)

/-- C3 witness at a concrete round-2 state where the offense shouts an
incorrect DONE. -/
theorem done_tier_semantics_witness :
    (Action.DONE = Action.DONE →
      (Game.process_shout sampleCfg (twoShouts Action.DONE Action.DARE)
            w1State).2.offense.num_shout_done
        = w1State.offense.num_shout_done + 1) ∧
    (Action.DONE = Action.DONE → w1State.offense.is_done = true →
      (Game.process_shout sampleCfg (twoShouts Action.DONE Action.DARE)
            w1State).1 = ShoutMsg.doneAborted Role.offense ∧
        (Game.process_shout sampleCfg (twoShouts Action.DONE Action.DARE)
            w1State).2.duelState = DuelState.ABORTED_BY_CORRECT_DONE ∧
        (Game.process_shout sampleCfg (twoShouts Action.DONE Action.DARE)
            w1State).2.duelOver = true ∧
        (Game.process_shout sampleCfg (twoShouts Action.DONE Action.DARE)
            w1State).2.gameOver = true ∧
        (Game.process_shout sampleCfg (twoShouts Action.DONE Action.DARE)
            w1State).2.gameResult = some GameResult.DONE ∧
        (Game.process_shout sampleCfg (twoShouts Action.DONE Action.DARE)
            w1State).2.gameWinner = some Role.offense ∧
        (Game.process_shout sampleCfg (twoShouts Action.DONE Action.DARE)
            w1State).2.offense.points = w1State.offense.points ∧
        (Game.process_shout sampleCfg (twoShouts Action.DONE Action.DARE)
            w1State).2.defense.points = w1State.defense.points) ∧
    (Action.DARE = Action.DONE →
        ¬(Action.DONE = Action.DONE ∧ w1State.offense.is_done = true) →
      (Game.process_shout sampleCfg (twoShouts Action.DONE Action.DARE)
            w1State).2.defense.num_shout_done
        = w1State.defense.num_shout_done + 1) ∧
    (Action.DARE = Action.DONE → w1State.defense.is_done = true →
        ¬(Action.DONE = Action.DONE ∧ w1State.offense.is_done = true) →
      (Game.process_shout sampleCfg (twoShouts Action.DONE Action.DARE)
            w1State).1 = ShoutMsg.doneAborted Role.defense ∧
        (Game.process_shout sampleCfg (twoShouts Action.DONE Action.DARE)
            w1State).2.duelState = DuelState.ABORTED_BY_CORRECT_DONE ∧
        (Game.process_shout sampleCfg (twoShouts Action.DONE Action.DARE)
            w1State).2.gameOver = true ∧
        (Game.process_shout sampleCfg (twoShouts Action.DONE Action.DARE)
            w1State).2.gameWinner = some Role.defense ∧
        (Game.process_shout sampleCfg (twoShouts Action.DONE Action.DARE)
            w1State).2.offense.points = w1State.offense.points ∧
        (Game.process_shout sampleCfg (twoShouts Action.DONE Action.DARE)
            w1State).2.defense.points = w1State.defense.points) ∧
    ((Action.DONE = Action.DONE → w1State.offense.is_done = false) →
      (Action.DARE = Action.DONE → w1State.defense.is_done = false) →
      Game.process_shout sampleCfg (twoShouts Action.DONE Action.DARE)
          w1State
        = dieDrawFallthrough sampleCfg
            (postDone sampleCfg
              (withTwoActions w1State Action.DONE Action.DARE))) :=
  done_tier_semantics sampleCfg Action.DONE Action.DARE w1State
    (Or.inr (Or.inl rfl))

/-- C4 witness: the amended claim at a concrete round-2 state where the
offense dies and the defense dares. -/
theorem offense_die_effects_witness :
    (Game.process_shout sampleCfg (twoShouts Action.DIE Action.DARE)
          w1State).1 = ShoutMsg.died Role.offense ∧
      (Game.process_shout sampleCfg (twoShouts Action.DIE Action.DARE)
          w1State).2.duelState = DuelState.DIED ∧
      (Game.process_shout sampleCfg (twoShouts Action.DIE Action.DARE)
          w1State).2.duelOver = true ∧
      (Game.process_shout sampleCfg (twoShouts Action.DIE Action.DARE)
          w1State).2.duelWinner = none ∧
      (Game.process_shout sampleCfg (twoShouts Action.DIE Action.DARE)
          w1State).2.offense.points = w1State.offense.points ∧
      (Game.process_shout sampleCfg (twoShouts Action.DIE Action.DARE)
          w1State).2.defense.points = w1State.defense.points ∧
      (Game.process_shout sampleCfg (twoShouts Action.DIE Action.DARE)
          w1State).2.gameOver = w1State.gameOver ∧
      (Game.process_shout sampleCfg (twoShouts Action.DIE Action.DARE)
          w1State).2.offense.num_shout_die
        = w1State.offense.num_shout_die + 1 ∧
      (Game.process_shout sampleCfg (twoShouts Action.DIE Action.DARE)
          w1State).2.defense.num_shout_die
        = w1State.defense.num_shout_die ∧
      (Game.process_shout sampleCfg (twoShouts Action.DIE Action.DARE)
          w1State).2.offense.deckInDuelIdx = none ∧
      (Game.process_shout sampleCfg (twoShouts Action.DIE Action.DARE)
          w1State).2.defense.deckInDuelIdx = none ∧
      (Game.process_shout sampleCfg (twoShouts Action.DIE Action.DARE)
          w1State).2.offense.decks.get? 0
        = some (Deck.finishAndOpen (duelDeck 5 7 2)) ∧
      (Game.process_shout sampleCfg (twoShouts Action.DIE Action.DARE)
          w1State).2.defense.decks.get? 0
        = some (Deck.finishAndOpen (duelDeck 4 6 3)) ∧
      (Deck.finishAndOpen (duelDeck 5 7 2)).state = DeckState.FINISHED ∧
      (∀ c ∈ (Deck.finishAndOpen (duelDeck 5 7 2)).cards, c.open_ = true) ∧
      (Deck.finishAndOpen (duelDeck 4 6 3)).state = DeckState.FINISHED ∧
      (∀ c ∈ (Deck.finishAndOpen (duelDeck 4 6 3)).cards, c.open_ = true) :=
  offense_die_effects sampleCfg Action.DARE w1State 0 0 (duelDeck 5 7 2)
    (duelDeck 4 6 3) (Or.inr rfl) (by decide) (by decide) rfl rfl rfl rfl

/--
C4 counterexample.  At a concrete round-2 (first-shout) state where the
offense declares DIE with die count 0 under the cap 3, but the defense
simultaneously declares a correct DONE (all 13 rank values are disclosed
among the defense's decks), the higher-priority DONE tier runs first:
the duel ends ABORTED_BY_CORRECT_DONE, not DIED, and the offense's die
counter stays 0 — refuting the claim as stated.
-/
theorem offense_die_preempted_by_correct_done :
    c4State.round = 2 ∧ c4State.offense.num_shout_die = 0 ∧
      c4State.defense.is_done = true ∧
      (Game.process_shout sampleCfg (twoShouts Action.DIE Action.DONE)
          c4State).1 = ShoutMsg.doneAborted Role.defense ∧
      (Game.process_shout sampleCfg (twoShouts Action.DIE Action.DONE)
          c4State).2.duelState = DuelState.ABORTED_BY_CORRECT_DONE ∧
      ¬ (Game.process_shout sampleCfg (twoShouts Action.DIE Action.DONE)
          c4State).1 = ShoutMsg.died Role.offense ∧
      (Game.process_shout sampleCfg (twoShouts Action.DIE Action.DONE)
          c4State).2.offense.num_shout_die = 0 := by
  decide

/-! ## `ComputerPlayer.get_chances` — the odds calculator (claims C9, C10) -/

/-- The four joker value strategies, as a closed enumeration (the source
dispatches on the strategy class). -/
inductive JokerValueStrategyT where
  | thirteen
  | sameAsMax
  | randomNumber
  | nextBiggest
deriving DecidableEq

/-- Embedding of the inner `guess_joker_value`: 13 for Thirteen, the
delegate value for SameAsMax, delegate − 1 for NextBiggest; the final
else branch calls `random.randint(1, delegate_value)`, modelled by the
oracle argument `randVal`. -/
def guess_joker_value (delegate_value : Int) (strat : JokerValueStrategyT)
    (randVal : Int) : Int :=
  match strat with
  | .thirteen => 13
  | .sameAsMax => delegate_value
  | .nextBiggest => delegate_value - 1
  | .randomNumber => randVal

/-- `itertools.combinations`: all size-`k` position-order sublists, in the
order itertools enumerates them. -/
def combinations {α : Type _} : Nat → List α → List (List α)
  | 0, _ => [[]]
  | _ + 1, [] => []
  | k + 1, x :: xs =>
    (combinations k xs).map (fun c => x :: c) ++ combinations (k + 1) xs

/-- Modelled from the spec: the `Suit` enumeration of the missing
`constants` module has four suits, two per color; following the source's
parity split, red suits are those with even enum value. -/
def suitValues : List Nat := [0, 1, 2, 3]

/-- Embedding of `RedPile`/`BlackPile` construction: one joker followed
by, for each suit of the color, the thirteen ranks with value = rank
(the joker's Python value is `None`, unread before assignment, here 0). -/
def pileCards (red : Bool) : List Card :=
  { suit := none, colored := red, rank := none, value := 0,
    open_ := false } ::
    (suitValues.filter (fun v => v % 2 == (if red then 0 else 1))).flatMap
      (fun st => (List.range 13).map
        (fun k =>
          { suit := some st, colored := red, rank := some (k + 1),
            value := (k : Int) + 1, open_ := false }))

/-- Python `list.remove` wrapped in try/except ValueError: remove the
first element equal (by card identity) to `c`, no-op when absent. -/
def pyRemove (l : List Card) (c : Card) : List Card :=
  l.eraseP (fun x => Card.eqId x c)

/-- Python `round(x, 3)` on the exact rational value (the source rounds
floats; the claims' values are exact thousandths where the two agree). -/
def round3 (q : ℚ) : ℚ := ((round (q * 1000) : ℤ) : ℚ) / 1000

def tripleSum (t : Nat × Nat × Nat) : Nat := t.1 + t.2.1 + t.2.2

/-- One win/draw/lose classification of a candidate pair. -/
def classify (sum_me sum_opponent : Int) (acc : Nat × Nat × Nat) :
    Nat × Nat × Nat :=
  if sum_me > sum_opponent then (acc.1 + 1, acc.2.1, acc.2.2)
  else if sum_me == sum_opponent then (acc.1, acc.2.1 + 1, acc.2.2)
  else (acc.1, acc.2.1, acc.2.2 + 1)

/-- A guessed completed sum: the open-card base plus, for each candidate
hidden card, its value — or the joker guess for a joker. -/
def comboSum (base delegate_value : Int) (strat : JokerValueStrategyT)
    (randVal : Int) (cards : List Card) : Int :=
  cards.foldl
    (fun sacc c =>
      if c.is_joker then sacc + guess_joker_value delegate_value strat randVal
      else sacc + c.value)
    base

/-- The double counting loop of `get_chances` over all candidate pairs
(the opponent's joker guess uses the default strategy SameAsMax, as in
the source). -/
def countPairs (candidates_me candidates_opponent : List (List Card))
    (current_sum_me current_sum_opponent : Int)
    (delegate_value_me delegate_value_opponent : Int)
    (strat : JokerValueStrategyT) (randVal : Int) : Nat × Nat × Nat :=
  candidates_me.foldl
    (fun acc cards_me =>
      candidates_opponent.foldl
        (fun acc2 cards_opponent =>
          classify
            (comboSum current_sum_me delegate_value_me strat randVal cards_me)
            (comboSum current_sum_opponent delegate_value_opponent
              JokerValueStrategyT.sameAsMax randVal cards_opponent)
            acc2)
        acc)
    (0, 0, 0)

/-- The `deck_in_duel` default-argument logic: use the supplied deck, else
the first deck in state IN_DUEL (`none` models the StopIteration when no
deck is in duel). -/
def find_deck_in_duel (given : Option Deck) (decks : List Deck) :
    Option Deck :=
  match given with
  | some d => some d
  | none => decks.find? (·.is_in_duel)

/-- Embedding of `ComputerPlayer.get_chances`.  Candidate hidden cards for
the player: every unopened own card that is a joker or has value ≤ the
committed deck's delegate value.  For the opponent: the full pile of the
opponent's color (its cards opened by `UnopenedPile`) minus the cards
open among the opponent's decks (removed by identity, first occurrence,
absent ignored), filtered by the same joker-or-≤-delegate test.  All
size-k combinations (k = unrevealed cards of the player's committed
deck) of each side are paired, classified by guessed sums, and the three
counts are divided by the total and rounded to 3 decimals; `none` models
the ZeroDivisionError when there are no pairs. -/
def get_chances (decks_me decks_opponent : List Deck)
    (is_opponent_red : Bool)
    (deck_in_duel_me? deck_in_duel_opponent? : Option Deck)
    (joker_value_strategy_me : JokerValueStrategyT) (randVal : Int) :
    Option (ℚ × ℚ × ℚ) :=
  match find_deck_in_duel deck_in_duel_me? decks_me with
  | none => none
  | some deck_in_duel_me =>
    match deck_in_duel_me.cards.head? with
    | none => none
    | some delegate_me =>
      match find_deck_in_duel deck_in_duel_opponent? decks_opponent with
      | none => none
      | some deck_in_duel_opponent =>
        match deck_in_duel_opponent.cards.head? with
        | none => none
        | some delegate_opponent =>
          let current_sum_me : Int :=
            ((deck_in_duel_me.cards.filter (·.open_)).map (·.value)).sum
          let hidden_cards_me := decks_me.flatMap
            (fun d => d.cards.filter
              (fun c => !c.open_ &&
                (c.is_joker || decide (c.value ≤ delegate_me.value))))
          let num_to_open :=
            3 - (deck_in_duel_me.cards.filter (·.open_)).length
          let current_sum_opponent : Int :=
            ((deck_in_duel_opponent.cards.filter (·.open_)).map
              (·.value)).sum
          let unopened :=
            (decks_opponent.flatMap
                (fun d => d.cards.filter (·.open_))).foldl pyRemove
              ((pileCards is_opponent_red).map Card.open_up)
          let hidden_cards_opponent := unopened.filter
            (fun c => c.is_joker ||
              decide (c.value ≤ delegate_opponent.value))
          let candidates_me := combinations num_to_open hidden_cards_me
          let candidates_opponent :=
            combinations num_to_open hidden_cards_opponent
          let counts := countPairs candidates_me candidates_opponent
            current_sum_me current_sum_opponent delegate_me.value
            delegate_opponent.value joker_value_strategy_me randVal
          if tripleSum counts = 0 then none
          else
            some (round3 ((counts.1 : ℚ) / (tripleSum counts : ℚ)),
              round3 ((counts.2.1 : ℚ) / (tripleSum counts : ℚ)),
              round3 ((counts.2.2 : ℚ) / (tripleSum counts : ℚ)))

theorem round3_one : round3 1 = 1 := by
  norm_num [round3]

theorem round3_zero : round3 0 = 0 := by
  norm_num [round3]

/--
C9.  On a duel state where both committed decks are fully revealed (zero
hidden cards on each side), the odds calculator returns the degenerate
distribution: (1, 0, 0) when the player's final sum is strictly greater,
(0, 1, 0) when the sums are equal, (0, 0, 1) when strictly smaller — the
probability-1 outcome matching the deterministic comparison of the two
decks' summed values.
-/
theorem get_chances_degenerate (decks_me decks_opponent : List Deck)
    (red : Bool) (dm dop : Deck) (strat : JokerValueStrategyT) (rand : Int)
    (hm3 : dm.cards.length = 3) (ho3 : dop.cards.length = 3)
    (hmo : ∀ c ∈ dm.cards, c.open_ = true)
    (hoo : ∀ c ∈ dop.cards, c.open_ = true) :
    (dm.sumValues > dop.sumValues →
      get_chances decks_me decks_opponent red (some dm) (some dop) strat
          rand = some (1, 0, 0)) ∧
    (dm.sumValues = dop.sumValues →
      get_chances decks_me decks_opponent red (some dm) (some dop) strat
          rand = some (0, 1, 0)) ∧
    (dm.sumValues < dop.sumValues →
      get_chances decks_me decks_opponent red (some dm) (some dop) strat
          rand = some (0, 0, 1)) := by
  have hfm : dm.cards.filter (·.open_) = dm.cards :=
    List.filter_eq_self.mpr (fun c hc => by rw [hmo c hc])
  have hfo : dop.cards.filter (·.open_) = dop.cards :=
    List.filter_eq_self.mpr (fun c hc => by rw [hoo c hc])
  obtain ⟨cm, hcm⟩ : ∃ c, dm.cards.head? = some c := by
    cases hc : dm.cards with
    | nil => rw [hc] at hm3; simp at hm3
    | cons c cs => exact ⟨c, by simp [hc]⟩
  obtain ⟨co, hco⟩ : ∃ c, dop.cards.head? = some c := by
    cases hc : dop.cards with
    | nil => rw [hc] at ho3; simp at ho3
    | cons c cs => exact ⟨c, by simp [hc]⟩
  have hk : 3 - (dm.cards.filter (·.open_)).length = 0 := by
    rw [hfm, hm3]
  refine ⟨?_, ?_, ?_⟩
  · intro hcmp
    simp only [Deck.sumValues] at hcmp
    have hcl : classify ((dm.cards.map (·.value)).sum)
        ((dop.cards.map (·.value)).sum) (0 : Nat × Nat × Nat) = (1, 0, 0) := by
      simp [classify, hcmp]
    simp [get_chances, find_deck_in_duel, hcm, hco, hfm, hfo, hk, hm3,
      combinations, countPairs, comboSum, hcl, tripleSum, round3_one,
      round3_zero]
  · intro hcmp
    simp only [Deck.sumValues] at hcmp
    have hcl : classify ((dm.cards.map (·.value)).sum)
        ((dop.cards.map (·.value)).sum) (0 : Nat × Nat × Nat) = (0, 1, 0) := by
      simp [classify, hcmp]
    simp [get_chances, find_deck_in_duel, hcm, hco, hfm, hfo, hk, hm3,
      combinations, countPairs, comboSum, hcl, tripleSum, round3_one,
      round3_zero]
  · intro hcmp
    simp only [Deck.sumValues] at hcmp
    have h1 : ¬ ((dm.cards.map (·.value)).sum
        > (dop.cards.map (·.value)).sum) := by omega
    have h2 : ¬ ((dm.cards.map (·.value)).sum
        = (dop.cards.map (·.value)).sum) := by omega
    have hcl : classify ((dm.cards.map (·.value)).sum)
        ((dop.cards.map (·.value)).sum) (0 : Nat × Nat × Nat) = (0, 0, 1) := by
      simp [classify, h1, h2]
    simp [get_chances, find_deck_in_duel, hcm, hco, hfm, hfo, hk, hm3,
      combinations, countPairs, comboSum, hcl, tripleSum, round3_one,
      round3_zero]

/-! Toolkit for the candidate-set lower bounds of the odds calculator. -/

theorem combinations_ne_nil {α : Type _} :
    ∀ (k : Nat) (l : List α), k ≤ l.length → combinations k l ≠ []
  | 0, _, _ => by simp [combinations]
  | k + 1, [], h => by simp at h
  | k + 1, x :: xs, h => by
    intro hcontra
    rcases List.append_eq_nil.mp (by simpa [combinations] using hcontra)
      with ⟨h1, _⟩
    exact combinations_ne_nil k xs (by simpa using h) h1

theorem length_le_length_flatMap {α β : Type _} (l : List α)
    (f : α → List β) (a : α) (ha : a ∈ l) :
    (f a).length ≤ (l.flatMap f).length := by
  induction l with
  | nil => cases ha
  | cons x xs ih =>
    rcases List.mem_cons.mp ha with rfl | hmem
    · simp
    · have h := ih hmem
      simp only [List.flatMap_cons, List.length_append]
      omega

theorem eqId_true_iff (a b : Card) :
    Card.eqId a b = true ↔
      a.suit = b.suit ∧ a.colored = b.colored ∧ a.rank = b.rank := by
  simp [Card.eqId, Bool.and_eq_true, and_assoc]

theorem eqId_trans_symm {x o c : Card} (h1 : Card.eqId x o = true)
    (h2 : Card.eqId x c = true) : Card.eqId o c = true := by
  rw [eqId_true_iff] at h1 h2 ⊢
  exact ⟨h1.1.symm.trans h2.1, h1.2.1.symm.trans h2.2.1,
    h1.2.2.symm.trans h2.2.2⟩

theorem countP_eraseP_of_disjoint (l : List Card) (p q : Card → Bool)
    (h : ∀ x, p x = true → q x = false) :
    (l.eraseP p).countP q = l.countP q := by
  induction l with
  | nil => rfl
  | cons c cs ih =>
    by_cases hp : p c
    · simp [List.eraseP_cons, hp, List.countP_cons, h c hp]
    · simp only [Bool.not_eq_true] at hp
      simp [List.eraseP_cons, hp, List.countP_cons, ih]

theorem countP_foldl_pyRemove (c : Card) :
    ∀ (os : List Card), (∀ o ∈ os, Card.eqId o c = false) →
      ∀ L : List Card,
        ((os.foldl pyRemove L).countP (fun x => Card.eqId x c))
          = L.countP (fun x => Card.eqId x c)
  | [], _, _ => rfl
  | o :: os, h, L => by
    have ho : Card.eqId o c = false := h o (by simp)
    have hdisj : ∀ x, Card.eqId x o = true → Card.eqId x c = false := by
      intro x hxo
      cases hxc : Card.eqId x c
      · rfl
      · have := eqId_trans_symm hxo hxc
        rw [eqId_trans_symm hxo hxc] at ho
        cases ho
    rw [List.foldl_cons,
      countP_foldl_pyRemove c os (fun o' h' => h o' (by simp [h']))
        (pyRemove L o)]
    exact countP_eraseP_of_disjoint L _ _ hdisj

theorem foldl_pyRemove_sublist :
    ∀ (os : List Card) (L : List Card), (os.foldl pyRemove L).Sublist L
  | [], L => List.Sublist.refl L
  | o :: os, L => by
    rw [List.foldl_cons]
    exact (foldl_pyRemove_sublist os (pyRemove L o)).trans
      (List.eraseP_sublist L)

theorem pile_value_eq_rank (red : Bool) :
    ∀ c ∈ pileCards red, ∀ r : Nat, c.rank = some r → c.value = (r : Int) := by
  intro c hc r hr
  simp only [pileCards, List.mem_cons] at hc
  rcases hc with rfl | hc
  · simp at hr
  · rw [List.mem_flatMap] at hc
    obtain ⟨st, _, hmem⟩ := hc
    rw [List.mem_map] at hmem
    obtain ⟨k, _, rfl⟩ := hmem
    simp only [Option.some.injEq] at hr
    simp [← hr]

@[simp] theorem open_up_rank (c : Card) : (Card.open_up c).rank = c.rank := rfl

@[simp] theorem open_up_value (c : Card) : (Card.open_up c).value = c.value :=
  rfl

@[simp] theorem open_up_suit (c : Card) : (Card.open_up c).suit = c.suit := rfl

@[simp] theorem eqId_open_up (x c : Card) :
    Card.eqId (Card.open_up x) c = Card.eqId x c := rfl

theorem tripleSum_classify (a b : Int) (acc : Nat × Nat × Nat) :
    tripleSum (classify a b acc) = tripleSum acc + 1 := by
  unfold classify tripleSum
  split_ifs <;> simp <;> omega

theorem tripleSum_foldl_classify {β : Type _} (l : List β) (f g : β → Int) :
    ∀ acc : Nat × Nat × Nat,
      tripleSum (l.foldl (fun a x => classify (f x) (g x) a) acc)
        = tripleSum acc + l.length := by
  induction l with
  | nil => intro acc; simp
  | cons x xs ih =>
    intro acc
    rw [List.foldl_cons, ih (classify (f x) (g x) acc), tripleSum_classify]
    simp
    omega

theorem tripleSum_countPairs (cm co : List (List Card))
    (curMe curOp delMe delOp : Int) (strat : JokerValueStrategyT)
    (rand : Int) :
    tripleSum (countPairs cm co curMe curOp delMe delOp strat rand)
      = cm.length * co.length := by
  unfold countPairs
  suffices h : ∀ acc : Nat × Nat × Nat,
      tripleSum (cm.foldl
        (fun acc cards_me =>
          co.foldl
            (fun acc2 cards_opponent =>
              classify (comboSum curMe delMe strat rand cards_me)
                (comboSum curOp delOp JokerValueStrategyT.sameAsMax rand
                  cards_opponent)
                acc2)
            acc)
        acc) = tripleSum acc + cm.length * co.length by
    have h0 := h (0, 0, 0)
    simpa [tripleSum] using h0
  induction cm with
  | nil => intro acc; simp
  | cons x xs ih =>
    intro acc
    rw [List.foldl_cons, ih]
    rw [tripleSum_foldl_classify co
      (fun _ => comboSum curMe delMe strat rand x)
      (fun cards_opponent => comboSum curOp delOp
        JokerValueStrategyT.sameAsMax rand cards_opponent) acc]
    simp
    ring

theorem get_chances_degenerate_witness :
    get_chances [] [] true (some (fDeck 9 7 5)) (some (fDeck 4 6 3))
        JokerValueStrategyT.sameAsMax 0 = some (1, 0, 0) :=
  (get_chances_degenerate [] [] true (fDeck 9 7 5) (fDeck 4 6 3)
      JokerValueStrategyT.sameAsMax 0 (by decide) (by decide) (by decide)
      (by decide)).1 (by decide)

/-- An open joker whose value has been assigned to `v`. -/
def oJoker (v : Int) : Card :=
  { suit := none, colored := true, rank := none, value := v, open_ := true }

/-- A committed deck whose hidden third card outvalues the delegate: the
arrangement the stale-index `JokerLast` swap produces (cf. C7), where the
low-valued joker ends up revealed early and the best card stays hidden. -/
def dmBad : Deck :=
  { cards := [oCard 5, oJoker 3, hCard 9], state := DeckState.IN_DUEL,
    index := 0 }

theorem length_filter_not (l : List Card) (p : Card → Bool) :
    (l.filter p).length + (l.filter (fun c => !p c)).length = l.length := by
  induction l with
  | nil => rfl
  | cons c cs ih =>
    by_cases h : p c <;> simp [List.filter_cons, h] <;> omega

theorem length_le_of_counts :
    ∀ (hs F : List Card),
      hs.Pairwise (fun a b => Card.eqId a b = false) →
      (∀ c ∈ hs, 1 ≤ F.countP (fun x => Card.eqId x c)) →
      hs.length ≤ F.length
  | [], _, _, _ => Nat.zero_le _
  | c :: cs, F, hpw, hcnt => by
    have h1 : 1 ≤ F.countP (fun x => Card.eqId x c) := hcnt c (by simp)
    obtain ⟨x, hxF, hxc⟩ :=
      List.countP_pos.mp (by omega : 0 < F.countP (fun x => Card.eqId x c))
    have hlen : (F.eraseP (fun x => Card.eqId x c)).length + 1 = F.length :=
      List.length_eraseP_add_one hxF hxc
    obtain ⟨hdisj_c, hpwcs⟩ := List.pairwise_cons.mp hpw
    have hcnt' : ∀ c' ∈ cs,
        1 ≤ (F.eraseP (fun x => Card.eqId x c)).countP
          (fun x => Card.eqId x c') := by
      intro c' hc'
      rw [countP_eraseP_of_disjoint]
      · exact hcnt c' (by simp [hc'])
      · intro y hy
        cases hyc' : Card.eqId y c'
        · rfl
        · exact absurd (eqId_trans_symm hy hyc')
            (by simp [hdisj_c c' hc'])
    have ih := length_le_of_counts cs (F.eraseP (fun x => Card.eqId x c))
      hpwcs hcnt'
    simp only [List.length_cons]
    omega

/--
C10.  The odds calculator is not safe from division by zero: on a
mid-duel deck whose hidden card strictly outvalues its own delegate
(exactly what the C7 `JokerLast` mis-swap produces when the joker
receives a low value), every own candidate hidden card is filtered away,
the candidate set is empty, the total pair count is 0, and the division
raises ZeroDivisionError (modelled as `none`) — even though both decks
still hold one hidden card each, so the state is a perfectly ordinary
round-2 duel.
-/
theorem get_chances_division_by_zero :
    (dmBad.cards.filter (fun c => !c.open_)).length = 1 ∧
      ((duelDeck 4 6 3).cards.filter (fun c => !c.open_)).length = 1 ∧
      get_chances [dmBad] [duelDeck 4 6 3] true (some dmBad)
        (some (duelDeck 4 6 3)) JokerValueStrategyT.sameAsMax 0 = none := by
  decide

/--
Amended C10: under the game's own invariants — the committed deck
belongs to the player's decks, both committed decks hold three cards
with an open delegate in front, every hidden card is a joker or does not
outvalue its side's delegate, the two committed decks hide equally many
cards, each of the opponent's hidden cards has an identity copy in the
opponent's color pile, is not identity-equal to any card lying open
among the opponent's decks or to another hidden card, and non-joker
values equal ranks — both candidate sets are nonempty, the total pair
count is positive, and `get_chances` returns a distribution (no
ZeroDivisionError).
-/
theorem get_chances_total_positive (decks_me decks_opponent : List Deck)
    (red : Bool) (dm dop : Deck) (strat : JokerValueStrategyT) (rand : Int)
    (cd cod : Card) (hdm : dm ∈ decks_me)
    (hcd : dm.cards.head? = some cd) (hcod : dop.cards.head? = some cod)
    (hm3 : dm.cards.length = 3) (ho3 : dop.cards.length = 3)
    (hdomMe : ∀ c ∈ dm.cards, c.open_ = false →
      (c.is_joker || decide (c.value ≤ cd.value)) = true)
    (hdomOp : ∀ c ∈ dop.cards, c.open_ = false →
      (c.is_joker || decide (c.value ≤ cod.value)) = true)
    (hhid : (dop.cards.filter (fun c => !c.open_)).length
      = (dm.cards.filter (fun c => !c.open_)).length)
    (hpile : ∀ c ∈ dop.cards, c.open_ = false →
      ∃ c' ∈ pileCards red, Card.eqId c' c = true)
    (hopen : ∀ o ∈ decks_opponent.flatMap (fun d => d.cards.filter (·.open_)),
      ∀ c ∈ dop.cards, c.open_ = false → Card.eqId o c = false)
    (hdist : dop.cards.Pairwise (fun a b => a.open_ = false →
      b.open_ = false → Card.eqId a b = false))
    (hrank : ∀ c ∈ dop.cards, c.open_ = false →
      ∀ r : Nat, c.rank = some r → c.value = (r : Int)) :
    (get_chances decks_me decks_opponent red (some dm) (some dop) strat
        rand).isSome = true := by
  have hsplit_m := length_filter_not dm.cards (fun c => c.open_)
  have hsplit_o := length_filter_not dop.cards (fun c => c.open_)
  -- the player's own hidden cards all survive the candidate filter
  have hcongr_me : dm.cards.filter
      (fun c => !c.open_ && (c.is_joker || decide (c.value ≤ cd.value)))
      = dm.cards.filter (fun c => !c.open_) := by
    apply List.filter_congr
    intro c hc
    cases ho : c.open_
    · simp [hdomMe c hc ho]
    · simp
  have h0 := length_le_length_flatMap decks_me
    (fun d => d.cards.filter
      (fun c => !c.open_ && (c.is_joker || decide (c.value ≤ cd.value))))
    dm hdm
  simp only [hcongr_me] at h0
  have hlenme : 3 - (dm.cards.filter (fun c => c.open_)).length
      ≤ (decks_me.flatMap (fun d => d.cards.filter
        (fun c => !c.open_ &&
          (c.is_joker || decide (c.value ≤ cd.value))))).length := by
    omega
  -- the opponent's unopened pile retains one copy of every hidden card
  have hcount : ∀ c ∈ dop.cards, c.open_ = false →
      1 ≤ ((decks_opponent.flatMap
          (fun d => d.cards.filter (·.open_))).foldl pyRemove
        ((pileCards red).map Card.open_up)).countP
          (fun x => Card.eqId x c) := by
    intro c hc hco
    rw [countP_foldl_pyRemove c _ (fun o ho => hopen o ho c hc hco)]
    obtain ⟨c', hc'mem, hc'eq⟩ := hpile c hc hco
    have hmm : Card.open_up c' ∈ (pileCards red).map Card.open_up :=
      List.mem_map_of_mem _ hc'mem
    have hpos : 0 < ((pileCards red).map Card.open_up).countP
        (fun x => Card.eqId x c) :=
      List.countP_pos.mpr ⟨Card.open_up c', hmm, by simpa using hc'eq⟩
    omega
  -- every retained copy passes the joker-or-below-delegate filter
  have hqual : ∀ x ∈ (decks_opponent.flatMap
        (fun d => d.cards.filter (·.open_))).foldl pyRemove
      ((pileCards red).map Card.open_up),
      ∀ c ∈ dop.cards, c.open_ = false → Card.eqId x c = true →
        (x.is_joker || decide (x.value ≤ cod.value)) = true := by
    intro x hxU c hc hco hxc
    have hxP : x ∈ (pileCards red).map Card.open_up :=
      (foldl_pyRemove_sublist _ _).subset hxU
    obtain ⟨y, hy, rfl⟩ := List.mem_map.mp hxP
    have hr := (eqId_true_iff _ c).mp hxc
    cases hrank_c : c.rank with
    | none =>
      have hyn : y.rank = none := by
        have h := hr.2.2
        rw [open_up_rank] at h
        rw [h, hrank_c]
      simp [Card.is_joker, hyn]
    | some r =>
      have hyr : y.rank = some r := by
        rw [← open_up_rank, hr.2.2, hrank_c]
      have hyv : y.value = (r : Int) := pile_value_eq_rank red y hy r hyr
      have hcv : c.value = (r : Int) := hrank c hc hco r hrank_c
      have hq := hdomOp c hc hco
      have hcj : c.is_joker = false := by simp [Card.is_joker, hrank_c]
      rw [hcj] at hq
      simp only [Bool.false_or, decide_eq_true_eq] at hq
      have hv : y.value ≤ cod.value := by
        rw [hyv, ← hcv]; exact hq
      simp [hv]
  have hFcount : ∀ c ∈ dop.cards, c.open_ = false →
      1 ≤ (((decks_opponent.flatMap
          (fun d => d.cards.filter (·.open_))).foldl pyRemove
        ((pileCards red).map Card.open_up)).filter
          (fun c => c.is_joker || decide (c.value ≤ cod.value))).countP
            (fun x => Card.eqId x c) := by
    intro c hc hco
    rw [List.countP_filter]
    have h1 := hcount c hc hco
    have h2 : ((decks_opponent.flatMap
        (fun d => d.cards.filter (·.open_))).foldl pyRemove
      ((pileCards red).map Card.open_up)).countP
        (fun a => Card.eqId a c &&
          (a.is_joker || decide (a.value ≤ cod.value)))
        = ((decks_opponent.flatMap
        (fun d => d.cards.filter (·.open_))).foldl pyRemove
      ((pileCards red).map Card.open_up)).countP
        (fun x => Card.eqId x c) := by
      apply List.countP_congr
      intro x hx
      cases hxc : Card.eqId x c
      · simp
      · simp [hqual x hx c hc hco hxc]
    omega
  -- the hidden cards are pairwise identity-distinct, so counts add up
  have hpwF : (dop.cards.filter (fun c => !c.open_)).Pairwise
      (fun a b => Card.eqId a b = false) := by
    have h1 : (dop.cards.filter (fun c => !c.open_)).Pairwise
        (fun a b => a.open_ = false → b.open_ = false →
          Card.eqId a b = false) :=
      hdist.sublist (List.filter_sublist dop.cards)
    refine h1.imp_of_mem ?_
    intro a b ha hb hab
    have ha' : a.open_ = false := by
      have := (List.mem_filter.mp ha).2; simpa using this
    have hb' : b.open_ = false := by
      have := (List.mem_filter.mp hb).2; simpa using this
    exact hab ha' hb'
  have hlenop : 3 - (dm.cards.filter (fun c => c.open_)).length
      ≤ (((decks_opponent.flatMap
          (fun d => d.cards.filter (·.open_))).foldl pyRemove
        ((pileCards red).map Card.open_up)).filter
          (fun c => c.is_joker || decide (c.value ≤ cod.value))).length := by
    have h1 := length_le_of_counts (dop.cards.filter (fun c => !c.open_)) _
      hpwF (fun c hc => hFcount c (List.mem_filter.mp hc).1
        (by have := (List.mem_filter.mp hc).2; simpa using this))
    omega
  simp only [get_chances, find_deck_in_duel, hcd, hcod]
  split
  · rename_i h
    rw [tripleSum_countPairs] at h
    rcases Nat.mul_eq_zero.mp h with h0 | h0
    · exact absurd (List.length_eq_zero.mp h0)
        (combinations_ne_nil _ _ hlenme)
    · exact absurd (List.length_eq_zero.mp h0)
        (combinations_ne_nil _ _ hlenop)
  · rfl

/-- The opponent's committed deck for the witness duel: delegate 5 open,
7 open, and the black two of the first black suit still hidden. -/
def dopW : Deck :=
  { cards := [oCard 5, oCard 7,
      { suit := some 1, colored := false, rank := some 2, value := 2,
        open_ := false }],
    state := DeckState.IN_DUEL, index := 0 }

theorem get_chances_total_positive_witness :
    (get_chances [duelDeck 4 6 3] [dopW] false (some (duelDeck 4 6 3))
        (some dopW) JokerValueStrategyT.sameAsMax 0).isSome = true :=
  get_chances_total_positive [duelDeck 4 6 3] [dopW] false (duelDeck 4 6 3)
    dopW JokerValueStrategyT.sameAsMax 0 (oCard 4) (oCard 5)
    (List.mem_singleton.mpr rfl) rfl rfl (by decide) (by decide)
    (by decide) (by decide) (by decide) (by decide) (by decide) (by decide)
    (by intro c hc hco r hr; fin_cases hc <;> simp_all [oCard] <;> omega)

end DieOrDare
